import Mathlib

set_option maxHeartbeats 1000000
set_option linter.unusedVariables false

namespace Dynasm

/-- Operand/value size, mirroring `Size` in src/lib/src/common.rs.
The Rust enum derives `Ord` on the discriminants (1,2,4,6,8,10,16,32), which
coincides with the byte-count order realised below by `Size.lt`/`Size.le`. -/
inductive Size
| byte
| word
| dword
| fword
| qword
| pword
| oword
| hword
deriving DecidableEq

/-- Mirrors `Size::in_bytes` (the enum discriminant). -/
def Size.in_bytes : Size → Nat
| .byte => 1
| .word => 2
| .dword => 4
| .fword => 6
| .qword => 8
| .pword => 10
| .oword => 16
| .hword => 32

/-- Strict order on sizes (the derived Rust `Ord`). -/
def Size.lt (a b : Size) : Bool := a.in_bytes < b.in_bytes

/-- Non-strict order on sizes (the derived Rust `Ord`). -/
def Size.le (a b : Size) : Bool := a.in_bytes ≤ b.in_bytes

/-- Mirrors `NumericRepr` in common.rs: a size together with a signedness. -/
structure NumericRepr where
  size : Size
  signed : Bool
deriving DecidableEq

def NumericRepr.unsigned (size : Size) : NumericRepr := ⟨size, false⟩

def NumericRepr.signed_of (size : Size) : NumericRepr := ⟨size, true⟩

def NumericRepr.U8 : NumericRepr := .unsigned .byte
def NumericRepr.I8 : NumericRepr := .signed_of .byte
def NumericRepr.U16 : NumericRepr := .unsigned .word
def NumericRepr.I16 : NumericRepr := .signed_of .word
def NumericRepr.U32 : NumericRepr := .unsigned .dword
def NumericRepr.I32 : NumericRepr := .signed_of .dword
def NumericRepr.U64 : NumericRepr := .unsigned .qword
def NumericRepr.I64 : NumericRepr := .signed_of .qword

/-- Mirrors `Expr` in common.rs: a caller-owned symbolic expression slot,
identified by an index and carrying a numeric representation. -/
structure Expr where
  idx : Nat
  repr : NumericRepr
deriving DecidableEq

/-- Mirrors `X86Mode` in src/lib/src/arch/x64/mod.rs. -/
inductive X86Mode
| Long
| Protected
deriving DecidableEq

/-- Mirrors `Error` in src/lib/src/arch/x64/mod.rs.  The `expr` case models
`Error::Expr(arch::Error::BadExprCombinator { expr })`, which is how the
combinator helper failures arrive here through the `From` impl. -/
inductive Error
| expr (e : Expr)
| disabledFeatures (features : Nat)
| unsupportedOperandInThisMode (operand : String) (op_size : Size) (mode : X86Mode)
    (mode_hint : Option X86Mode)
| unsupportedInThisMode (message : String) (mode_hint : Option X86Mode)
| generic (message : String)
| fatal
deriving DecidableEq

/-- Outcome of running a piece of translated Rust code: a normal return, a
returned `Err` value, or a Rust panic (`unwrap`/`expect`/`panic!` and friends,
which are not values in Rust and are therefore modelled as a third case). -/
inductive CResult (α : Type)
| ok (a : α)
| err (e : Error)
| panicked (msg : String)
deriving DecidableEq

def CResult.bind {α β : Type} (x : CResult α) (f : α → CResult β) : CResult β :=
  match x with
  | .ok a => f a
  | .err e => .err e
  | .panicked m => .panicked m

instance : Monad CResult where
  pure := CResult.ok
  bind := CResult.bind

def U64_MOD : Nat := 2 ^ 64

def U64_MAX : Nat := 2 ^ 64 - 1

/-- Mirrors `Number` in common.rs: a u64 bit pattern (here a `Nat` kept below
`2 ^ 64`) tagged with a representation. -/
structure Number where
  value : Nat
  repr : NumericRepr
deriving DecidableEq

/-- Mirrors `Number::from_u64_and_repr`; the `% 2 ^ 64` models the `u64`
parameter type. -/
def Number.from_u64_and_repr (value : Nat) (repr : NumericRepr) : Number :=
  ⟨value % U64_MOD, repr⟩

/-- Mirrors `Number::from_u64_and_size`. -/
def Number.from_u64_and_size (val : Nat) (size : Size) : Number :=
  Number.from_u64_and_repr val (NumericRepr.unsigned size)

/-- Mirrors `Number::byte` (the `% 2 ^ 8` models the `u8` parameter type). -/
def Number.byte (val : Nat) : Number := Number.from_u64_and_size (val % 2 ^ 8) .byte

/-- Mirrors `Number::word` (u16 parameter). -/
def Number.word (val : Nat) : Number := Number.from_u64_and_size (val % 2 ^ 16) .word

/-- Mirrors `Number::dword` (u32 parameter). -/
def Number.dword (val : Nat) : Number := Number.from_u64_and_size (val % 2 ^ 32) .dword

/-- Mirrors `Number::qword` (u64 parameter). -/
def Number.qword (val : Nat) : Number := Number.from_u64_and_size val .qword

def Number.byte_len (n : Number) : Nat := n.repr.size.in_bytes

/-- Mirrors `Number::mask` as written in the source: `ALL_BITS` is
`size_of::<u64>().try_into().unwrap()`, i.e. the value 8 (bytes, not bits),
and the shift amount is `ALL_BITS.checked_sub(len).unwrap()` where
`len = byte_len * 8` is computed in `u8` arithmetic (overflow for HWORD
panics in a debug build, which is the behaviour modelled here). -/
def Number.mask (n : Number) : CResult Nat :=
  let allBits : Nat := 8
  let len : Nat := n.byte_len * 8
  if 256 ≤ len then .panicked "arithmetic overflow"
  else if allBits < len then .panicked "unwrap"
  else .ok (U64_MAX >>> (allBits - len))

/-- Mirrors `Number::sign_bit`: `1 << (byte_len * 8 - 1)` in `u64`, a shift
amount of 64 or more panics (debug semantics). -/
def Number.sign_bit (n : Number) : CResult Nat :=
  let len : Nat := n.byte_len * 8
  if 256 ≤ len then .panicked "arithmetic overflow"
  else if 64 ≤ len - 1 then .panicked "shift overflow"
  else .ok ((1 <<< (len - 1)) % U64_MOD)

/-- Mirrors `Number::is_sign_bit_set`. -/
def Number.is_sign_bit_set (n : Number) : CResult Bool :=
  n.sign_bit.bind fun sb => .ok (decide (n.value &&& sb ≠ 0))

/-- Mirrors `Number::correct_extension_bits_for_sign` (the `!self.mask()`
complement is taken within u64, i.e. `mask ^^^ U64_MAX`). -/
def Number.correct_extension_bits_for_sign (n : Number) : CResult Number :=
  if n.repr.signed then
    n.is_sign_bit_set.bind fun set =>
    if set then
      n.mask.bind fun m => .ok ⟨n.value ||| (U64_MAX ^^^ m), n.repr⟩
    else
      n.mask.bind fun m => .ok ⟨n.value &&& m, n.repr⟩
  else
    n.mask.bind fun m => .ok ⟨n.value &&& m, n.repr⟩

/-- Mirrors `Number::cast_as`: replace the representation, then fix the
extension bits. -/
def Number.cast_as (n : Number) (repr : NumericRepr) : CResult Number :=
  Number.correct_extension_bits_for_sign ⟨n.value, repr⟩

/-- Mirrors `Number::repr_of_max`. -/
def Number.repr_of_max (n : Number) : CResult Nat :=
  n.mask.bind fun m =>
  if n.repr.signed then n.sign_bit.bind fun sb => .ok (m ^^^ sb)
  else .ok (m ^^^ 0)

/-- Mirrors `Number::repr_below_min`. -/
def Number.repr_below_min (n : Number) : CResult Nat :=
  if n.repr.signed then
    n.repr_of_max.bind fun mx => .ok ((U64_MAX ^^^ mx) - 1)
  else .ok 0

/-- Mirrors `Number::convert` (value-preserving conversion; note the source
requires `cast.value <= max && cast.value > below_min`). -/
def Number.convert (n : Number) (repr : NumericRepr) : CResult (Option Number) :=
  (n.cast_as repr).bind fun cast =>
  n.repr_of_max.bind fun smax =>
  cast.repr_of_max.bind fun cmax =>
  n.repr_below_min.bind fun smin =>
  cast.repr_below_min.bind fun cmin =>
  .ok (if cast.value ≤ min smax cmax ∧ max smin cmin < cast.value then some cast else none)

/-- Mirrors `Number::make_signed`. -/
def Number.make_signed (n : Number) (signed : Bool) : CResult Number :=
  Number.correct_extension_bits_for_sign ⟨n.value, ⟨n.repr.size, signed⟩⟩

/-- Mirrors `Number::resize` (a `const fn`: the bit pattern is kept as-is,
only the size of the representation changes). -/
def Number.resize (n : Number) (size : Size) : Number :=
  ⟨n.value, ⟨size, n.repr.signed⟩⟩

/-- Mirrors `Number::as_u8` (the final `as u8` truncates). -/
def Number.as_u8 (n : Number) : CResult Nat :=
  (n.cast_as NumericRepr.U8).bind fun c => .ok (c.value % 2 ^ 8)

/-- Register families, mirroring `RegFamily` of the x64 AST module.  The AST
module itself is not part of src/, so this datatype is modelled from the
spec: LEGACY, HIGHBYTE, XMM, MMX, FP, SEGMENT, CONTROL, DEBUG, BOUND, RIP. -/
inductive RegFamily
| legacy
| highbyte
| xmm
| mmx
| fp
| segment
| control
| debug
| bound
| rip
deriving DecidableEq

/-- Modelled from the spec: a register identity (the x64 AST module with
`RegId` is not part of src/).  A `RegId` carries the hardware code and the
family; named constants below follow the x86 numbering (RAX=0 .. RDI=7,
R8..R15 = 8..15). -/
structure RegId where
  code : Nat
  family : RegFamily
deriving DecidableEq

def RegId.RAX : RegId := ⟨0, .legacy⟩
def RegId.RCX : RegId := ⟨1, .legacy⟩
def RegId.RDX : RegId := ⟨2, .legacy⟩
def RegId.RBX : RegId := ⟨3, .legacy⟩
def RegId.RSP : RegId := ⟨4, .legacy⟩
def RegId.RBP : RegId := ⟨5, .legacy⟩
def RegId.RSI : RegId := ⟨6, .legacy⟩
def RegId.RDI : RegId := ⟨7, .legacy⟩
def RegId.R8 : RegId := ⟨8, .legacy⟩
def RegId.R12 : RegId := ⟨12, .legacy⟩
def RegId.R13 : RegId := ⟨13, .legacy⟩
def RegId.RIP : RegId := ⟨5, .rip⟩
def RegId.CR8 : RegId := ⟨8, .control⟩
def RegId.ST0 : RegId := ⟨0, .fp⟩

/-- Mirrors `RegId::from_number` (a plain legacy register code). -/
def RegId.from_number (n : Nat) : RegId := ⟨n, .legacy⟩

/-- Modelled from the spec: `RegKind` is either a statically known `RegId` or
a dynamically chosen register carrying a family hint and a caller expression. -/
inductive RegKind
| static (id : RegId)
| dynamic (hint : RegId) (e : Expr)
deriving DecidableEq

/-- Mirrors `RegKind::code`: only a static register has a known code. -/
def RegKind.code : RegKind → Option Nat
| .static id => some id.code
| .dynamic _ _ => none

/-- Mirrors `RegKind::encode`: the code, or 0 for a dynamic register (the
dynamic bits are OR-ed in later through the expression combinators). -/
def RegKind.encode (k : RegKind) : Nat := (k.code).getD 0

def RegKind.family : RegKind → RegFamily
| .static id => id.family
| .dynamic hint _ => hint.family

def RegKind.is_dynamic : RegKind → Bool
| .static _ => false
| .dynamic _ _ => true

/-- Mirrors `RegKind::is_extended` (code above 7 needs a REX/VEX extension
bit). -/
def RegKind.is_extended (k : RegKind) : Bool := 7 < k.encode

/-- Mirrors `RegKind::from_number`. -/
def RegKind.from_number (n : Nat) : RegKind := .static (RegId.from_number n)

/-- Equality of a register kind with a `RegId` (the Rust
`PartialEq<RegId> for RegKind`): only a static register compares equal. -/
def RegKind.is_id (k : RegKind) (id : RegId) : Bool := k = RegKind.static id

/-- Modelled from the spec: a register is a kind plus an explicit bit size. -/
structure Register where
  size : Size
  kind : RegKind
deriving DecidableEq

/-- Mirrors `Register::new_static`. -/
def Register.new_static (size : Size) (id : RegId) : Register := ⟨size, .static id⟩

/-- Equality of a register with a `RegId` (`PartialEq<RegId> for Register`). -/
def Register.is_id (r : Register) (id : RegId) : Bool := r.kind.is_id id

/-- Equality of an optional register with a `RegId`
(`PartialEq<RegId> for Option<Register>`): `None` never compares equal. -/
def opt_reg_is (r : Option Register) (id : RegId) : Bool :=
  match r with
  | some reg => reg.is_id id
  | none => false

/-- Dynamic-register test on an optional register (`None` is not dynamic). -/
def opt_reg_is_dynamic (r : Option Register) : Bool :=
  match r with
  | some reg => reg.kind.is_dynamic
  | none => false

/-- Mirrors `Value` in common.rs: a fully known number or a caller-owned
symbolic expression. -/
inductive Value
| number (n : Number)
| expr (e : Expr)
deriving DecidableEq

def Value.Byte (val : Nat) : Value := .number (Number.byte val)

def Value.Word (val : Nat) : Value := .number (Number.word val)

def Value.Dword (val : Nat) : Value := .number (Number.dword val)

def Value.Qword (val : Nat) : Value := .number (Number.qword val)

/-- Mirrors `Value::repr`. -/
def Value.repr : Value → NumericRepr
| .number n => n.repr
| .expr e => e.repr

/-- Mirrors `Value::size`. -/
def Value.size (v : Value) : Size := v.repr.size

/-- Mirrors `Value::convert`: numbers do a value-preserving conversion, a
symbolic expression just gets the new representation recorded. -/
def Value.convert (v : Value) (repr : NumericRepr) : CResult (Option Value) :=
  match v with
  | .number n => (n.convert repr).bind fun o => .ok (o.map Value.number)
  | .expr e => .ok (some (.expr ⟨e.idx, repr⟩))

/-- Mirrors `Ident` in common.rs. -/
structure Ident where
  name : String
deriving DecidableEq

/-- Mirrors `JumpKind` in common.rs. -/
inductive JumpKind
| global (i : Ident)
| backward (i : Ident)
| forward (i : Ident)
| dynamic (e : Expr)
| bare (v : Value)
deriving DecidableEq

/-- Mirrors `Jump` in common.rs. -/
structure Jump where
  kind : JumpKind
  offset : Option Expr
deriving DecidableEq

/-- Mirrors `JumpOffset` in common.rs. -/
inductive JumpOffset
| zero
| injected (v : Value)
deriving DecidableEq

/-- Mirrors `From<Option<Expr>> for JumpOffset`. -/
def JumpOffset.of_opt : Option Expr → JumpOffset
| none => .zero
| some e => .injected (.expr e)

/-- Mirrors `Stmt` in common.rs (the output vocabulary).  `Stmt::Stmt` is
named `stmt` here. -/
inductive Stmt
| const (v : Value)
| extend (bytes : List Nat)
| exprExtend (v : Value)
| align (e : Expr) (v : Value)
| globalLabel (i : Ident)
| localLabel (i : Ident)
| dynamicLabel (e : Expr)
| globalJumpTarget (i : Ident) (off : JumpOffset) (data : List Nat)
| forwardJumpTarget (i : Ident) (off : JumpOffset) (data : List Nat)
| backwardJumpTarget (i : Ident) (off : JumpOffset) (data : List Nat)
| dynamicJumpTarget (t : JumpOffset) (off : JumpOffset) (data : List Nat)
| bareJumpTarget (t : JumpOffset) (data : List Nat)
| stmt (e : Expr)
deriving DecidableEq

/-- Mirrors `Stmt::u8`. -/
def Stmt.u8 (value : Nat) : Stmt := .const (Value.Byte value)

/-- Mirrors `Stmt::u16`. -/
def Stmt.u16 (value : Nat) : Stmt := .const (Value.Word value)

/-- Mirrors `Stmt::u32`. -/
def Stmt.u32 (value : Nat) : Stmt := .const (Value.Dword value)

/-- Mirrors `Stmt::zeroed`. -/
def Stmt.zeroed (size : Size) : Stmt := .const (.number (Number.from_u64_and_size 0 size))

/-- Mirrors `Jump::encode`: turn the jump and a relocation payload into the
corresponding statement. -/
def Jump.encode (j : Jump) (data : List Nat) : Stmt :=
  match j.kind with
  | .global i => .globalJumpTarget i (JumpOffset.of_opt j.offset) data
  | .backward i => .backwardJumpTarget i (JumpOffset.of_opt j.offset) data
  | .forward i => .forwardJumpTarget i (JumpOffset.of_opt j.offset) data
  | .dynamic e => .dynamicJumpTarget (.injected (.expr e)) (JumpOffset.of_opt j.offset) data
  | .bare v => .bareJumpTarget (.injected v) data

/-- Modelled: the `Flags` bitset lives in the generated x64data module, which
is not part of src/.  Only which flags exist (they are the ones the compiler
consults) and their distinctness matter; the concrete bit positions are an
arbitrary choice. -/
def Flags.VEX_OP : Nat := 1 <<< 0
def Flags.XOP_OP : Nat := 1 <<< 1
def Flags.IMM_OP : Nat := 1 <<< 2
def Flags.SHORT_ARG : Nat := 1 <<< 3
def Flags.AUTO_SIZE : Nat := 1 <<< 4
def Flags.AUTO_NO32 : Nat := 1 <<< 5
def Flags.AUTO_REXW : Nat := 1 <<< 6
def Flags.AUTO_VEXL : Nat := 1 <<< 7
def Flags.WORD_SIZE : Nat := 1 <<< 8
def Flags.WITH_REXW : Nat := 1 <<< 9
def Flags.WITH_VEXL : Nat := 1 <<< 10
def Flags.PREF_67 : Nat := 1 <<< 11
def Flags.PREF_F0 : Nat := 1 <<< 12
def Flags.PREF_F2 : Nat := 1 <<< 13
def Flags.PREF_F3 : Nat := 1 <<< 14
def Flags.LOCK : Nat := 1 <<< 15
def Flags.REP : Nat := 1 <<< 16
def Flags.REPE : Nat := 1 <<< 17
def Flags.EXACT_SIZE : Nat := 1 <<< 18
def Flags.X86_ONLY : Nat := 1 <<< 19
def Flags.ENC_MR : Nat := 1 <<< 20
def Flags.ENC_VM : Nat := 1 <<< 21

/-- Mirrors the bitflags `contains` test: all bits of `b` occur in `a`. -/
def nat_contains (a b : Nat) : Bool := a &&& b = b

/-- Mirrors the bitflags `intersects` test: some bit is shared. -/
def nat_intersects (a b : Nat) : Bool := a &&& b ≠ 0

/-- Mirrors the bitflags set difference `a - b`: the bits of `a` not in `b`. -/
def nat_diff (a b : Nat) : Nat := a &&& (a ^^^ b)

/-- Mirrors `Opdata` in src/lib/src/arch/x64/compiler.rs.  The Rust format
string is a flat byte list consumed two bytes at a time by
`FormatStringIterator`; it is represented here directly as the list of
(operand-kind code, size code) pairs that the iterator yields. -/
structure Opdata where
  args : List (Nat × Nat)
  ops : List Nat
  reg : Nat
  flags : Nat
  features : Nat
deriving DecidableEq

/-- Memory-operand index slot: register, scale, optional dynamic scale
expression (the Rust `(Register, isize, Option<Expr>)`). -/
abbrev RIndex : Type := Register × Int × Option Expr

/-- Mirrors `CleanArg` of the x64 AST module (modelled from the spec, the AST
module is not part of src/): the matcher input with possibly unresolved
sizes.  The fields are the ones the compiler reads. -/
inductive CleanArg
| direct (reg : Register)
| indirect (nosplit : Bool) (size : Option Size) (disp_size : Option Size)
    (base : Option Register) (index : Option RIndex) (disp : Option Value)
| indirectJumpTarget (jump : Jump) (size : Option Size)
| jumpTarget (jump : Jump) (size : Option Size)
| immediate (value : Value)
deriving DecidableEq

/-- Mirrors `SizedArg` (modelled from the spec, like `CleanArg`): the
post-sizing operand form fed to the emitter. -/
inductive SizedArg
| direct (reg : Register)
| indirect (disp_size : Option Size) (base : Option Register) (index : Option RIndex)
    (disp : Option Value)
| indirectJumpTarget (jump : Jump)
| jumpTarget (jump : Jump) (size : Size)
| immediate (value : Value)
deriving DecidableEq

/-- Mirrors `Instruction` of the x64 AST module: the list of instruction
idents (prefixes followed by the mnemonic). -/
structure Instruction where
  idents : List Ident
deriving DecidableEq

/-- Mirrors `Context` in src/lib/src/arch/x64/mod.rs (the expression-builder
state is carried separately by the `M` monad below). -/
structure Context where
  mode : X86Mode
  features : Nat
deriving DecidableEq

/-- Mirrors `ErrorSpan` in src/lib/src/arch/mod.rs. -/
inductive ErrorSpan
| instructionPart (idx : Nat)
| argument (idx : Nat)
deriving DecidableEq

/-- Mirrors `ErrorSpan::argument`. -/
def ErrorSpan.arg_span (idx : Nat) : ErrorSpan := .argument idx

/-- Mirrors `RelocationKind` in compiler.rs; the constructors stand for
Relative, Absolute and Extern (in that order). -/
inductive RelocationKind
| rel
| abs
| ext
deriving DecidableEq

/-- Mirrors `RelocationKind::to_id`. -/
def RelocationKind.to_id : RelocationKind → Nat
| .rel => 0
| .abs => 1
| .ext => 2

/-- One pending relocation record of `compile_instruction`:
(target, offset, size, kind). -/
structure Reloc where
  target : Jump
  offset : Nat
  size : Size
  kind : RelocationKind
deriving DecidableEq

/-- The observable state of the expression builder used by the compiler: the
statement stream built by `push` and the diagnostics emitted through
`emit_error_at`.  This is the concrete `impl BasicExprBuilder for State` of
src/lib/src/arch/mod.rs, whose combinators can never combine expressions
(they all return `None`) and whose `emit_error_at` records the message. -/
structure CompState where
  stmts : List Stmt
  diags : List String
deriving DecidableEq

/-- Writer-style monad for the pure parts of the compiler that may emit
diagnostics (but never push statements): a result plus emitted messages. -/
def EM (α : Type) : Type := CResult α × List String

def EM.pure {α : Type} (a : α) : EM α := (.ok a, [])

def EM.bind {α β : Type} (x : EM α) (f : α → EM β) : EM β :=
  match x with
  | (.ok a, d) => match f a with
    | (r, d') => (r, d ++ d')
  | (.err e, d) => (.err e, d)
  | (.panicked m, d) => (.panicked m, d)

instance : Monad EM where
  pure := EM.pure
  bind := EM.bind

/-- Emit a diagnostic through the builder (`emit_error_at`); the `State`
builder implementation discards the span and keeps the message. -/
def EM.emit ( span : ErrorSpan) (msg : String) : EM Unit := (.ok (), [msg])

def EM.throw {α : Type} (e : Error) : EM α := (.err e, [])

def EM.panic {α : Type} (msg : String) : EM α := (.panicked msg, [])

/-- State monad for the compiler parts that push statements. -/
def M (α : Type) : Type := CompState → CResult α × CompState

def M.pure {α : Type} (a : α) : M α := fun st => (.ok a, st)

def M.bind {α β : Type} (x : M α) (f : α → M β) : M β := fun st =>
  match x st with
  | (.ok a, st') => f a st'
  | (.err e, st') => (.err e, st')
  | (.panicked m, st') => (.panicked m, st')

instance : Monad M where
  pure := M.pure
  bind := M.bind

def M.throw {α : Type} (e : Error) : M α := fun st => (.err e, st)

def M.panic {α : Type} (msg : String) : M α := fun st => (.panicked msg, st)

/-- Mirrors `BasicExprBuilder::push` of the `State` implementation. -/
def M.push (s : Stmt) : M Unit := fun st => (.ok (), ⟨st.stmts ++ [s], st.diags⟩)

/-- Mirrors `BasicExprBuilder::emit_error_at` of the `State` implementation
(writes the message, discards the span). -/
def M.emit ( span : ErrorSpan) (msg : String) : M Unit :=
  fun st => (.ok (), ⟨st.stmts, st.diags ++ [msg]⟩)

/-- Lift a diagnostics-only computation into the stateful monad. -/
def M.liftEM {α : Type} (x : EM α) : M α :=
  fun st => (x.1, ⟨st.stmts, st.diags ++ x.2⟩)

/-- Lift a pure fallible computation into the stateful monad. -/
def M.liftCR {α : Type} (x : CResult α) : M α := fun st => (x, st)

/-- Mirrors `BasicExprBuilder::mask_shift` of the `State` implementation: it
can never build an expression. -/
def M.mask_shift ( val : Expr) ( mask : Nat) ( shift : Int) : M (Option Expr) :=
  M.pure none

/-- Mirrors `BasicExprBuilder::bit_or` of the `State` implementation. -/
def M.bit_or ( a : Expr) ( b : Value) : M (Option Expr) := M.pure none

/-- Mirrors `BasicExprBuilder::bit_and` of the `State` implementation. -/
def M.bit_and ( a : Expr) ( b : Value) : M (Option Expr) := M.pure none

/-- Mirrors `BasicExprBuilder::neg` of the `State` implementation. -/
def M.neg_b ( a : Expr) : M (Option Expr) := M.pure none

/-- Mirrors `BasicExprBuilder::mul` of the `State` implementation. -/
def M.mul_b ( a : Expr) ( b : Value) : M (Option Expr) := M.pure none

/-- Mirrors `BasicExprBuilderExt::mask_shift_else_err`. -/
def M.mask_shift_else_err (val : Expr) (mask : Nat) (shift : Int) : M Expr :=
  M.bind (M.mask_shift val mask shift) fun o =>
  match o with
  | some e => M.pure e
  | none => M.throw (.expr val)

/-- Mirrors `BasicExprBuilderExt::bit_or_else_err`. -/
def M.bit_or_else_err (a : Expr) (b : Value) : M Expr :=
  M.bind (M.bit_or a b) fun o =>
  match o with
  | some e => M.pure e
  | none => M.throw (.expr a)

/-- Mirrors `BasicExprBuilderExt::bit_and_else_err`. -/
def M.bit_and_else_err (a : Expr) (b : Value) : M Expr :=
  M.bind (M.bit_and a b) fun o =>
  match o with
  | some e => M.pure e
  | none => M.throw (.expr a)

/-- Mirrors `BasicExprBuilderExt::neg_else_err`. -/
def M.neg_else_err (a : Expr) : M Expr :=
  M.bind (M.neg_b a) fun o =>
  match o with
  | some e => M.pure e
  | none => M.throw (.expr a)

/-- Mirrors `BasicExprBuilderExt::mul_else_err`. -/
def M.mul_else_err (a : Expr) (b : Value) : M Expr :=
  M.bind (M.mul_b a b) fun o =>
  match o with
  | some e => M.pure e
  | none => M.throw (.expr a)

/-- Mirrors `BasicExprBuilderExt::mask_shift_or_else_err`:
`reg | ((val & mask) << shift)`. -/
def M.mask_shift_or_else_err (reg : Value) (val : Expr) (mask : Nat) (shift : Int) : M Expr :=
  M.bind (M.mask_shift_else_err val mask shift) fun operand =>
  M.bit_or_else_err operand reg

/-- Mirrors `BasicExprBuilderExt::mask_shift_inverted_and_else_err`:
`reg & !((val & mask) << shift)`. -/
def M.mask_shift_inverted_and_else_err (reg : Value) (val : Expr) (mask : Nat) (shift : Int) :
    M Expr :=
  M.bind (M.mask_shift_else_err val mask shift) fun operand =>
  M.bind (M.neg_else_err operand) fun operand' =>
  M.bit_and_else_err operand' reg

/-- Mirrors `BasicExprBuilderExt::dynscale`, whose default body is
`unimplemented!()` (the `State` builder does not override it). -/
def M.dynscale ( a : Expr) ( b : Value) : M (Expr × Expr) := M.panic "unimplemented"

/-- Mirrors `encode_scale` in compiler.rs. -/
def encode_scale (scale : Int) : Option Nat :=
  if scale = 1 then some 0
  else if scale = 2 then some 1
  else if scale = 4 then some 2
  else if scale = 8 then some 3
  else none

/-- Mirrors `derive_size` in compiler.rs. -/
def derive_size (val : Value) : Option Size :=
  match val with
  | .expr e => some e.repr.size
  | .number nr => some nr.repr.size

/-- Mirrors `sanitize_indirect` in compiler.rs: validate the base/index
combination and return the effective address size (`none` for a pure
displacement or VSIB without base) together with the rewritten base and
index slots (the Rust function mutates them through `&mut`). -/
def sanitize_indirect (ctx : Context) (span : ErrorSpan) (nosplit : Bool)
    (base : Option Register) (index : Option RIndex) :
    EM (Option Size × Option Register × Option RIndex) := do
  let b := base.map fun r => (r.kind.family, r.size)
  let i := index.map fun t => (t.1.kind.family, t.1.size)
  -- figure out the addressing mode and size
  let cls ← (match b, i with
    | none, none => EM.pure none
    | some (f, s), none => EM.pure (some (s, f, false))
    | none, some (f, s) => EM.pure (some (s, f, false))
    | some (f1, s1), some (f2, s2) =>
      if f1 = f2 then
        if s1 ≠ s2 then do
          EM.emit span "Registers of differing sizes"
          EM.throw Error.fatal
        else EM.pure (some (s1, f1, false))
      else if f1 = RegFamily.xmm then EM.pure (some (s2, f2, true))
      else if f2 = RegFamily.xmm then EM.pure (some (s1, f1, true))
      else do
        EM.emit span "Register type combination not supported"
        EM.throw Error.fatal)
  match cls with
  | none => return (none, base, index)
  | some (size, family, vsib_mode) => do
    -- filter out combinations that are impossible to encode
    (match family with
     | RegFamily.rip =>
       if b.isSome ∧ i.isSome then do
         EM.emit span "Register type combination not supported"
         EM.throw Error.fatal
       else EM.pure ()
     | RegFamily.legacy =>
       (match size with
        | Size.dword => EM.pure ()
        | Size.qword => EM.pure ()
        | Size.word =>
          if ctx.mode = X86Mode.Protected ∨ vsib_mode then do
            EM.emit span "16-bit addressing is not supported in this mode"
            EM.throw Error.fatal
          else EM.pure ()
        | _ => do
          EM.emit span "Register type not supported"
          EM.throw Error.fatal)
     | RegFamily.xmm =>
       -- the source emits the diagnostic here but does not return an error
       if b.isSome ∧ i.isSome then EM.emit span "Register type combination not supported"
       else EM.pure ()
     | _ => do
       EM.emit span "Register type not supported"
       EM.throw Error.fatal)
    -- RIP-relative encoding
    if family = RegFamily.rip then
      match index with
      | none => return (some size, base, none)
      | some (r, sc, se) =>
        if sc = 1 ∧ se = none then return (some size, some r, none)
        else do
          EM.emit span "RIP cannot be scaled"
          EM.throw Error.fatal
    -- VSIB without base
    else if family = RegFamily.xmm then
      match base with
      | some reg => return (none, none, some (reg, 1, none))
      | none => return (none, none, index)
    -- VSIB with base: check if an index/base swap is necessary
    else if vsib_mode then
      match base with
      | none => EM.panic "unwrap"
      | some breg =>
        if breg.kind.family = RegFamily.xmm then
          match index with
          | none => EM.panic "unwrap"
          | some (ireg, sc, se) =>
            if sc = 1 ∧ se = none then return (some size, some ireg, some (breg, 1, none))
            else do
              EM.emit span "vsib addressing requires a general purpose register as base"
              EM.throw Error.fatal
        else return (some size, base, index)
    -- 16-bit legacy addressing
    else if size = Size.word then do
      let first_reg := base
      let second ← (match index with
        | some (r, sc, se) =>
          if sc = 1 ∧ se = none then EM.pure (some r)
          else do
            EM.emit span "16-bit addressing with scaled index"
            EM.throw Error.fatal
        | none => EM.pure (none : Option Register))
      let (first_reg, second) :=
        if first_reg = none then (second, (none : Option Register)) else (first_reg, second)
      let encoded ← (
        if (opt_reg_is first_reg RegId.RBX ∧ opt_reg_is second RegId.RSI) ∨
           (opt_reg_is first_reg RegId.RSI ∧ opt_reg_is second RegId.RBX) then EM.pure 0
        else if (opt_reg_is first_reg RegId.RBX ∧ opt_reg_is second RegId.RDI) ∨
           (opt_reg_is first_reg RegId.RDI ∧ opt_reg_is second RegId.RBX) then EM.pure 1
        else if (opt_reg_is first_reg RegId.RBP ∧ opt_reg_is second RegId.RSI) ∨
           (opt_reg_is first_reg RegId.RSI ∧ opt_reg_is second RegId.RBP) then EM.pure 2
        else if (opt_reg_is first_reg RegId.RBP ∧ opt_reg_is second RegId.RDI) ∨
           (opt_reg_is first_reg RegId.RDI ∧ opt_reg_is second RegId.RBP) then EM.pure 3
        else if opt_reg_is first_reg RegId.RSI ∧ second = none then EM.pure 4
        else if opt_reg_is first_reg RegId.RDI ∧ second = none then EM.pure 5
        else if opt_reg_is first_reg RegId.RBP ∧ second = none then EM.pure 6
        else if opt_reg_is first_reg RegId.RBX ∧ second = none then EM.pure 7
        else do
          EM.emit span "Impossible register combination"
          EM.throw Error.fatal)
      return (some size, some (Register.new_static Size.word (RegId.from_number encoded)), none)
    -- normal addressing
    else do
      -- optimize indexes if a base is not present
      let (base, index) :=
        if ¬nosplit ∧ base = none then
          match index with
          | some (reg, sc, none) =>
            if sc = 2 ∨ sc = 3 ∨ sc = 5 ∨ sc = 9 then
              (some reg, some ((reg, sc - 1, none) : RIndex))
            else (base, index)
          | _ => (base, index)
        else (base, index)
      -- RSP as index field can not be represented; check if we can swap it with base
      let step ← (match index with
        | none => EM.pure (base, (none : Option RIndex))
        | some (i0, sc, se) =>
          if i0.is_id RegId.RSP then
            if ¬ opt_reg_is base RegId.RSP ∧ sc = 1 ∧ se = none then
              EM.pure (some i0, base.map fun r => ((r, 1, none) : RIndex))
            else do
              EM.emit span "rsp cannot be used as index field"
              EM.throw Error.fatal
          else EM.pure (base, some (i0, sc, se)))
      let (base, index) := step
      -- RSP, R12 or a dynamic register as base without an index: add an index
      -- so the encoding escapes into the SIB byte
      let index :=
        if index = none ∧ (opt_reg_is base RegId.RSP ∨ opt_reg_is base RegId.R12 ∨
            opt_reg_is_dynamic base) then
          some ((Register.new_static size RegId.RSP, 1, none) : RIndex)
        else index
      return (some size, base, index)

/-- Recursion of `sanitize_indirects_and_sizes` over the argument list,
carrying the argument position, the multiple-memory-operand flag and the
current address size (the Rust loop mutates the args in place; the rewritten
list is returned here). -/
def sanitize_args_go (ctx : Context) : List CleanArg → Nat → Bool → Option Size →
    EM (Option Size × List CleanArg)
| [], _, _, addr_size => EM.pure (addr_size, [])
| arg :: rest, idx, encountered, addr_size =>
  match arg with
  | CleanArg.indirect nosplit size disp_size base index disp => do
    let span := ErrorSpan.arg_span idx
    if encountered then EM.emit span "Multiple memory references in a single instruction"
    let (asz, base', index') ← sanitize_indirect ctx span nosplit base index
    (match index' with
     | some (_, sc, _) =>
       if encode_scale sc = none then EM.emit span "Impossible scale" else EM.pure ()
     | none => EM.pure ())
    let disp_size' ← (match disp_size with
      | some sz => do
        if disp = none then EM.emit span "Displacement size without displacement"
        (if asz = some Size.word then
          (if sz ≠ Size.byte ∧ sz ≠ Size.word then
            EM.emit span "Invalid displacement size, only BYTE or WORD are possible"
          else EM.pure ())
        else if sz ≠ Size.byte ∧ sz ≠ Size.dword then
          EM.emit span "Invalid displacement size, only BYTE or DWORD are possible"
        else EM.pure ())
        EM.pure (some sz)
      | none =>
        (match disp with
         | some d =>
           (match derive_size d with
            | some Size.byte => EM.pure (some Size.byte)
            | some _ => EM.pure (some (if asz = some Size.word then Size.word else Size.dword))
            | none => EM.pure (none : Option Size))
         | none => EM.pure (none : Option Size)))
    let (final_size, tl) ← sanitize_args_go ctx rest (idx + 1) true asz
    EM.pure (final_size, CleanArg.indirect nosplit size disp_size' base' index' disp :: tl)
  | _ => do
    let (final_size, tl) ← sanitize_args_go ctx rest (idx + 1) encountered addr_size
    EM.pure (final_size, arg :: tl)

/-- Mirrors `sanitize_indirects_and_sizes` in compiler.rs. -/
def sanitize_indirects_and_sizes (ctx : Context) (args : List CleanArg) :
    EM (Option Size × List CleanArg) :=
  sanitize_args_go ctx args 0 false none

/-- Mirrors the operand-kind arm of the big match in `match_format_string`:
for a (format-code, argument) pair, the operand size to check against the
format size (or `none` when the slot matches with unknown size), or the
"argument type mismatch" error.  The codes are the u8 character codes of the
format string (105 = i, 111 = o, 109 = m, 107 = k, 108 = l, 114 = r,
102 = f, 120 = x, 121 = y, 115 = s, 99 = c, 100 = d, 98 = b, 118 = v,
117 = u, 119 = w, 65-80 = A-P, 81-86 = Q-V, 87 = W, 88 = X). -/
def match_arg_size (code : Nat) (arg : CleanArg) : CResult (Option Size) :=
  match arg with
  | .immediate value =>
    if code = 105 ∨ code = 111 then .ok (some value.size)
    else .err (.generic "argument type mismatch")
  | .jumpTarget _ size =>
    if code = 111 then .ok size
    else .err (.generic "argument type mismatch")
  | .direct reg =>
    if 65 ≤ code ∧ code ≤ 80 then
      if reg.kind.family = RegFamily.legacy ∧ reg.kind.code = some (code - 65) then
        .ok (some reg.size)
      else .err (.generic "argument type mismatch")
    else if 81 ≤ code ∧ code ≤ 86 then
      if reg.kind.family = RegFamily.segment ∧ reg.kind.code = some (code - 81) then
        .ok (some reg.size)
      else .err (.generic "argument type mismatch")
    else if code = 87 then
      if reg.kind.is_id RegId.CR8 then .ok (some reg.size)
      else .err (.generic "argument type mismatch")
    else if code = 88 then
      if reg.kind.is_id RegId.ST0 then .ok (some reg.size)
      else .err (.generic "argument type mismatch")
    else if code = 114 ∨ code = 118 then
      if reg.kind.family = RegFamily.legacy ∨ reg.kind.family = RegFamily.highbyte then
        .ok (some reg.size)
      else .err (.generic "argument type mismatch")
    else if code = 120 ∨ code = 117 then
      if reg.kind.family = RegFamily.mmx then .ok (some reg.size)
      else .err (.generic "argument type mismatch")
    else if code = 121 ∨ code = 119 then
      if reg.kind.family = RegFamily.xmm then .ok (some reg.size)
      else .err (.generic "argument type mismatch")
    else if code = 102 then
      if reg.kind.family = RegFamily.fp then .ok (some reg.size)
      else .err (.generic "argument type mismatch")
    else if code = 115 then
      if reg.kind.family = RegFamily.segment then .ok (some reg.size)
      else .err (.generic "argument type mismatch")
    else if code = 99 then
      if reg.kind.family = RegFamily.control then .ok (some reg.size)
      else .err (.generic "argument type mismatch")
    else if code = 100 then
      if reg.kind.family = RegFamily.debug then .ok (some reg.size)
      else .err (.generic "argument type mismatch")
    else if code = 98 then
      if reg.kind.family = RegFamily.bound then .ok (some reg.size)
      else .err (.generic "argument type mismatch")
    else .err (.generic "argument type mismatch")
  | .indirect _ size _ _ index _ =>
    if code = 107 then
      (match index with
       | some (ireg, _, _) =>
         if (size = none ∨ size = some Size.dword) ∧ ireg.kind.family = RegFamily.xmm then
           .ok (some ireg.size)
         else .err (.generic "argument type mismatch")
       | none => .err (.generic "argument type mismatch"))
    else if code = 108 then
      (match index with
       | some (ireg, _, _) =>
         if (size = none ∨ size = some Size.qword) ∧ ireg.kind.family = RegFamily.xmm then
           .ok (some ireg.size)
         else .err (.generic "argument type mismatch")
       | none => .err (.generic "argument type mismatch"))
    else if code = 109 ∨ (117 ≤ code ∧ code ≤ 119) then
      if (match index with
          | none => true
          | some (r, _, _) => r.kind.family ≠ RegFamily.xmm) then .ok size
      else .err (.generic "argument type mismatch")
    else .err (.generic "argument type mismatch")
  | .indirectJumpTarget _ size =>
    if code = 109 ∨ (117 ≤ code ∧ code ≤ 119) then .ok size
    else .err (.generic "argument type mismatch")

/-- Mirrors the size-compatibility match of `match_format_string`
(format-size codes: 98 = b, 119 = w, 100 = d, 113 = q, 102 = f, 112 = p,
111 = o, 104 = h, 42 = star, 63 = question mark, 33 = bang); the two
`panic!` arms of the source are preserved. -/
def match_size_ok (fsize code : Nat) (size : Size) : CResult Bool :=
  if fsize = 119 ∧ code = 105 then .ok (size.le Size.word)
  else if fsize = 100 ∧ code = 105 then .ok (size.le Size.dword)
  else if fsize = 113 ∧ code = 105 then .ok (size.le Size.qword)
  else if fsize = 42 ∧ code = 105 then .ok (size.le Size.dword)
  else if fsize = 98 then .ok (decide (size = Size.byte))
  else if fsize = 119 then .ok (decide (size = Size.word))
  else if fsize = 100 then .ok (decide (size = Size.dword))
  else if fsize = 113 then .ok (decide (size = Size.qword))
  else if fsize = 102 then .ok (decide (size = Size.fword))
  else if fsize = 112 then .ok (decide (size = Size.pword))
  else if fsize = 111 then .ok (decide (size = Size.oword))
  else if fsize = 104 then .ok (decide (size = Size.hword))
  else if fsize = 42 ∧ (code = 107 ∨ code = 108 ∨ code = 121 ∨ code = 119) then
    .ok (decide (size = Size.oword ∨ size = Size.hword))
  else if fsize = 42 ∧ (code = 114 ∨ (65 ≤ code ∧ code ≤ 80) ∨ code = 118) then
    .ok (decide (size = Size.word ∨ size = Size.dword ∨ size = Size.qword))
  else if fsize = 42 ∧ code = 109 then .ok true
  else if fsize = 42 then .panicked "Invalid size wildcard"
  else if fsize = 63 then .ok true
  else if fsize = 33 then .ok false
  else .panicked "invalid format string"

/-- The per-operand loop of `match_format_string` (the argument iterator
`next().unwrap()` can only panic when the lists diverge in length, which the
caller has excluded). -/
def match_fmt_go (flags : Nat) : List (Nat × Nat) → List CleanArg → CResult Unit
| [], _ => .ok ()
| _ :: _, [] => .panicked "unwrap"
| (code, fsize) :: fr, arg :: ar =>
  (match_arg_size code arg).bind fun osize =>
  match osize with
  | some size =>
    (match_size_ok fsize code size).bind fun compatible =>
    if compatible then match_fmt_go flags fr ar
    else .err (.generic "argument size mismatch")
  | none =>
    if fsize ≠ 42 ∧ nat_contains flags Flags.EXACT_SIZE then
      .err (.generic "alternate variant exists")
    else match_fmt_go flags fr ar

/-- Mirrors `match_format_string` in compiler.rs.  The Rust length test
`fmtstr.len() != args.len() * 2` becomes an equality of the pair-list length
with the argument count. -/
def match_format_string (ctx : Context) (fmt : Opdata) (args : List CleanArg) : CResult Unit :=
  if ctx.mode ≠ X86Mode.Protected ∧ nat_intersects fmt.flags Flags.X86_ONLY then
    .err (.generic "Not available in 32-bit mode")
  else if fmt.args.length ≠ args.length then
    .err (.generic "argument length mismatch")
  else match_fmt_go fmt.flags fmt.args args

/-- Modelled from the spec: the feature name table of `Features::from_str`
lives in the generated x64data module, which is not part of src/.  A
representative subset of recognised names is used (the glossary of the spec names
AVX and BMI as feature examples); everything proved about `set_features`
below holds for any such table. -/
def Features.from_str (s : String) : Option Nat :=
  if s = "avx" then some 1
  else if s = "bmi" then some 2
  else if s = "popcnt" then some 4
  else if s = "sse" then some 8
  else none

/-- Modelled from the spec: the `mov r/m, r` store form.  The round-trip requirement of the spec (`mov rax, rbx` in 64-bit mode assembles to exactly
48 89 D8 = REX.W, opcode, ModRM with reg=rbx and rm=rax) pins this entry
down: format `v* r*`, opcode 0x89, MR operand order, automatic operand
size. -/
def mov_mr : Opdata :=
  ⟨[(118, 42), (114, 42)], [0x89], 0, Flags.AUTO_SIZE ||| Flags.ENC_MR, 0⟩

/-- Modelled from the spec: the `mov r, r/m` load form (`r* v*`, opcode 0x8B,
default RM operand order, automatic operand size). -/
def mov_rm : Opdata :=
  ⟨[(114, 42), (118, 42)], [0x8B], 0, Flags.AUTO_SIZE, 0⟩

/-- Modelled from the spec: a representative feature-gated table entry
(`popcnt r, r/m` requires its CPU feature bit). -/
def popcnt_op : Opdata :=
  ⟨[(114, 42), (118, 42)], [0x0F, 0xB8], 0, Flags.AUTO_SIZE ||| Flags.PREF_F3, 4⟩

/-- Modelled from the spec: `get_mnemnonic_data` looks the mnemonic up in the
static opcode table of the generated x64data module (not part of src/); the
table here carries the entries needed by the proofs. -/
def get_mnemnonic_data (name : String) : Option (List Opdata) :=
  if name = "mov" then some [mov_mr, mov_rm]
  else if name = "popcnt" then some [popcnt_op]
  else none

/-- Modelled from the spec: `format_opdata_list` lives in the debug module
(not part of src/); it renders every candidate signature of the mnemonic.
Here every candidate contributes its format string, rendered back to
characters, so the aggregate error message lists each candidate. -/
def format_opdata_list (data : List Opdata) : String :=
  data.foldl (fun acc f =>
    acc ++ "\n" ++
      String.mk (f.args.foldr (fun p cs => Char.ofNat p.1 :: Char.ofNat p.2 :: cs) [])) ""

/-- The diagnostic for an unknown mnemonic. -/
def invalid_instruction_msg (name : String) : String :=
  name ++ " is not a valid instruction"

/-- The aggregate no-form-matched error message of `match_op_format`. -/
def no_match_msg (name : String) (data : List Opdata) : String :=
  name ++ ": argument type/size mismatch, expected one of the following forms:" ++
    format_opdata_list data

/-- The candidate loop of `match_op_format`: first entry whose format string
matches wins; a panic inside `match_format_string` propagates; when no entry
matches the aggregate error names every candidate of the full table. -/
def match_op_go (ctx : Context) (args : List CleanArg) (name : String) (full : List Opdata) :
    List Opdata → EM Opdata
| [] => EM.throw (.generic (no_match_msg name full))
| f :: rest =>
  match match_format_string ctx f args with
  | .ok _ => EM.pure f
  | .err _ => match_op_go ctx args name full rest
  | .panicked m => EM.panic m

/-- Mirrors `match_op_format` in compiler.rs. -/
def match_op_format (ctx : Context) (span : ErrorSpan) (name : String) (args : List CleanArg) :
    EM Opdata :=
  match get_mnemnonic_data name with
  | some data => match_op_go ctx args name data data
  | none => EM.bind (EM.emit span (invalid_instruction_msg name)) fun _ => EM.throw Error.fatal

/-- The first pass of `size_operands` (the operand size determination loop):
fold over the operand/format pairs, collecting `has_arg`, the unified operand
size and the unified wildcard immediate size. -/
def determine_go : List (CleanArg × (Nat × Nat)) → Bool → Option Size → Option Size →
    CResult (Bool × Option Size × Option Size)
| [], has_arg, op_size, im_size => .ok (has_arg, op_size, im_size)
| (arg, (_, fsize)) :: rest, has_arg, op_size, im_size =>
  if fsize ≠ 42 then determine_go rest has_arg op_size im_size
  else
    match arg with
    | .direct reg =>
      if (match op_size with | some s => decide (s ≠ reg.size) | none => false) then
        .err (.generic "Conflicting operand sizes")
      else determine_go rest true (some reg.size) im_size
    | .indirectJumpTarget _ size =>
      (match size with
       | some s =>
         if (match op_size with | some s0 => decide (s0 ≠ s) | none => false) then
           .err (.generic "Conflicting operand sizes")
         else determine_go rest true (some s) im_size
       | none => determine_go rest true op_size im_size)
    | .indirect _ size _ _ index _ =>
      let size := match index with
        | some (reg, _, _) =>
          if reg.kind.family = RegFamily.xmm then some reg.size else size
        | none => size
      (match size with
       | some s =>
         if (match op_size with | some s0 => decide (s0 ≠ s) | none => false) then
           .err (.generic "Conflicting operand sizes")
         else determine_go rest true (some s) im_size
       | none => determine_go rest true op_size im_size)
    | .immediate value =>
      if im_size.isSome then .panicked "Bad formatting data? multiple immediates with wildcard size"
      else determine_go rest has_arg op_size (some value.size)
    | .jumpTarget _ size =>
      if im_size.isSome then .panicked "Bad formatting data? multiple immediates with wildcard size"
      else determine_go rest has_arg op_size size

/-- Mirrors the first pass of `size_operands`. -/
def determine_sizes (fmt : Opdata) (args : List CleanArg) :
    CResult (Bool × Option Size × Option Size) :=
  determine_go (args.zip fmt.args) false none none

/-- Mirrors the immediate-size capping block between the two passes of
`size_operands` (compiler.rs lines 1060-1070): with a known operand size the
reference immediate size is capped at DWORD and a larger wildcard immediate
is an error; without one, `has_arg` demands a size. -/
def cap_imm (op_size im_size : Option Size) (has_arg : Bool) :
    CResult (Option Size × Option Size) :=
  match op_size with
  | some o =>
    let ref_im_size := if Size.lt Size.dword o then Size.dword else o
    (match im_size with
     | some i =>
       if Size.lt ref_im_size i then .err (.generic "Immediate size mismatch")
       else .ok (some o, some ref_im_size)
     | none => .ok (some o, some ref_im_size))
  | none =>
    if has_arg then .err (.generic "Unknown operand size")
    else .ok (none, im_size)

/-- The slot-size table of the fill-in loop of `size_operands`; the source
arm order is kept (notably `(_, k)` and `(_, l)` take any format size). -/
def slot_size (fsize code : Nat) (op_size im_size : Option Size) : CResult Size :=
  if fsize = 98 then .ok Size.byte
  else if fsize = 119 then .ok Size.word
  else if code = 107 ∨ fsize = 100 then .ok Size.dword
  else if code = 108 ∨ fsize = 113 then .ok Size.qword
  else if fsize = 102 then .ok Size.fword
  else if fsize = 112 then .ok Size.pword
  else if fsize = 111 then .ok Size.oword
  else if fsize = 104 then .ok Size.hword
  else if fsize = 42 ∧ code = 105 then
    (match im_size with | some s => .ok s | none => .panicked "unwrap")
  else if fsize = 42 then
    (match op_size with | some s => .ok s | none => .panicked "unwrap")
  else if fsize = 33 then .ok Size.byte
  else .panicked "unreachable"

/-- The fill-in loop (second pass) of `size_operands`. -/
def fill_go (op_size im_size : Option Size) :
    List (CleanArg × (Nat × Nat)) → CResult (List SizedArg)
| [] => .ok []
| (arg, (code, fsize)) :: rest =>
  (slot_size fsize code op_size im_size).bind fun size =>
  (fill_go op_size im_size rest).bind fun tl =>
  .ok ((match arg with
    | .direct reg => SizedArg.direct reg
    | .jumpTarget jump _ => SizedArg.jumpTarget jump size
    | .indirectJumpTarget jump _ => SizedArg.indirectJumpTarget jump
    | .immediate value => SizedArg.immediate value
    | .indirect _ _ disp_size base index disp => SizedArg.indirect disp_size base index disp) :: tl)

/-- Mirrors `size_operands` in compiler.rs. -/
def size_operands (fmt : Opdata) (args : List CleanArg) :
    CResult (Option Size × List SizedArg) :=
  (determine_sizes fmt args).bind fun t =>
  (cap_imm t.2.1 t.2.2 t.1).bind fun c =>
  (fill_go c.1 c.2 (args.zip fmt.args)).bind fun new_args =>
  .ok (c.1, new_args)

/-- The prefix loop of `get_legacy_prefixes`: the selector is `true` for
prefix group 1 and `false` for group 2. -/
def legacy_prefix_go (fmt : Opdata) : List Ident → Nat → Option Nat → Option Nat →
    EM (Option Nat × Option Nat)
| [], _, group1, group2 => EM.pure (group1, group2)
| p :: rest, idx, group1, group2 => do
  let span := ErrorSpan.instructionPart idx
  let sel ← (
    if p.name = "rep" then
      (if nat_contains fmt.flags Flags.REP then EM.pure (true, 0xF3)
       else do
         EM.emit span ("Cannot use prefix " ++ p.name ++ " on this instruction")
         EM.throw Error.fatal)
    else if p.name = "repe" ∨ p.name = "repz" then
      (if nat_contains fmt.flags Flags.REPE then EM.pure (true, 0xF3)
       else do
         EM.emit span ("Cannot use prefix " ++ p.name ++ " on this instruction")
         EM.throw Error.fatal)
    else if p.name = "repnz" ∨ p.name = "repne" then
      (if nat_contains fmt.flags Flags.REP then EM.pure (true, 0xF2)
       else do
         EM.emit span ("Cannot use prefix " ++ p.name ++ " on this instruction")
         EM.throw Error.fatal)
    else if p.name = "lock" then
      (if nat_contains fmt.flags Flags.LOCK then EM.pure (true, 0xF0)
       else do
         EM.emit span ("Cannot use prefix " ++ p.name ++ " on this instruction")
         EM.throw Error.fatal)
    else if p.name = "ss" then EM.pure (false, 0x36)
    else if p.name = "cs" then EM.pure (false, 0x2E)
    else if p.name = "ds" then EM.pure (false, 0x3E)
    else if p.name = "es" then EM.pure (false, 0x26)
    else if p.name = "fs" then EM.pure (false, 0x64)
    else if p.name = "gs" then EM.pure (false, 0x65)
    else EM.panic "unimplemented prefix")
  if sel.1 then
    (if group1.isSome then do
      EM.emit span "Duplicate prefix group"
      EM.throw Error.fatal
    else legacy_prefix_go fmt rest (idx + 1) (some sel.2) group2)
  else
    (if group2.isSome then do
      EM.emit span "Duplicate prefix group"
      EM.throw Error.fatal
    else legacy_prefix_go fmt rest (idx + 1) group1 (some sel.2))

/-- Mirrors `get_legacy_prefixes` in compiler.rs. -/
def get_legacy_prefixes (fmt : Opdata) (idents : List Ident) : EM (Option Nat × Option Nat) :=
  legacy_prefix_go fmt idents 0 none none

/-- Extended-register test on an optional register. -/
def opt_reg_is_extended (r : Option Register) : Bool :=
  match r with
  | some reg => reg.kind.is_extended
  | none => false

/-- The argument scan of `check_rex`: accumulates `requires_rex` and
`requires_no_rex` over the encoded (lowercase-coded) operands. -/
def check_rex_go : List (SizedArg × (Nat × Nat)) → Bool → Bool → Bool × Bool
| [], rr, rn => (rr, rn)
| (arg, (c, _)) :: rest, rr, rn =>
  if 97 ≤ c ∧ c ≤ 122 then
    match arg with
    | .direct reg =>
      if reg.kind.family = RegFamily.highbyte then check_rex_go rest rr true
      else if reg.kind.is_extended ∨ (reg.size = Size.byte ∧
          (reg.kind.is_id RegId.RSP ∨ reg.kind.is_id RegId.RBP ∨
           reg.kind.is_id RegId.RSI ∨ reg.kind.is_id RegId.RDI)) then
        check_rex_go rest true rn
      else check_rex_go rest rr rn
    | .indirect _ base index _ =>
      let rr := rr || opt_reg_is_extended base
      let rr := rr || (match index with
        | some (i, _, _) => i.kind.is_extended
        | none => false)
      check_rex_go rest rr rn
    | _ => check_rex_go rest rr rn
  else check_rex_go rest rr rn

/-- Mirrors `check_rex` in compiler.rs. -/
def check_rex (ctx : Context) (fmt : Opdata) (args : List SizedArg) (rex_w : Bool) :
    CResult Bool :=
  if ctx.mode = X86Mode.Protected then
    if rex_w then
      .err (.unsupportedInThisMode "Does not support 64 bit operand size in 32-bit mode"
        (some X86Mode.Long))
    else .ok false
  else
    match check_rex_go (args.zip fmt.args) rex_w false with
    | (rr, rn) =>
      if rr ∧ rn then
        .err (.generic "High byte register combined with extended registers or 64-bit operand size")
      else .ok rr

/-- The collection phase of `extract_args`: memory slot index, reg slot
index, encodable register operands and immediates, in format-string order. -/
def extract_phase1 : List (SizedArg × (Nat × Nat)) → Option Nat → Option Nat →
    List SizedArg → List SizedArg →
    CResult (Option Nat × Option Nat × List SizedArg × List SizedArg)
| [], memarg, regarg, regs, immediates => .ok (memarg, regarg, regs, immediates)
| (arg, (c, _)) :: rest, memarg, regarg, regs, immediates =>
  if c = 109 ∨ c = 117 ∨ c = 118 ∨ c = 119 ∨ c = 107 ∨ c = 108 then
    (if memarg.isSome then .panicked "multiple memory arguments in format string"
     else extract_phase1 rest (some regs.length) regarg (regs ++ [arg]) immediates)
  else if c = 102 ∨ c = 120 ∨ c = 114 ∨ c = 121 ∨ c = 98 then
    extract_phase1 rest memarg regarg (regs ++ [arg]) immediates
  else if c = 99 ∨ c = 100 ∨ c = 115 then
    (if regarg.isSome then .panicked "multiple segment, debug or control registers in format string"
     else extract_phase1 rest memarg (some regs.length) (regs ++ [arg]) immediates)
  else if c = 105 ∨ c = 111 then
    extract_phase1 rest memarg regarg regs (immediates ++ [arg])
  else extract_phase1 rest memarg regarg regs immediates

/-- Mirrors `extract_args` in compiler.rs: split the sized operands into the
(m, r, v, i) encoding slots plus the immediate list, following the flag- and
memory-position-driven operand orders. -/
def extract_args (fmt : Opdata) (args : List SizedArg) :
    CResult (Option SizedArg × Option SizedArg × Option SizedArg × Option SizedArg ×
      List SizedArg) :=
  (extract_phase1 (args.zip fmt.args) none none [] []).bind fun t =>
  match t with
  | (memarg, regarg, regs, immediates) =>
    if 4 < regs.length then .panicked "too many arguments"
    else
      let slots : Option SizedArg × Option SizedArg × Option SizedArg × Option SizedArg :=
        match regarg with
        | some i =>
          if i = 0 then (regs.get? 1, regs.get? 0, none, none)
          else (regs.get? 0, regs.get? 1, none, none)
        | none =>
          if regs.length = 1 then (regs.get? 0, none, none, none)
          else if regs.length = 2 then
            (if nat_contains fmt.flags Flags.ENC_MR ∨ memarg = some 0 then
              (regs.get? 0, regs.get? 1, none, none)
            else if nat_contains fmt.flags Flags.ENC_VM then
              (regs.get? 1, none, regs.get? 0, none)
            else (regs.get? 1, regs.get? 0, none, none))
          else if regs.length = 3 then
            (if nat_contains fmt.flags Flags.ENC_MR ∨ memarg = some 1 then
              (regs.get? 1, regs.get? 0, regs.get? 2, none)
            else if nat_contains fmt.flags Flags.ENC_VM ∨ memarg = some 0 then
              (regs.get? 0, regs.get? 2, regs.get? 1, none)
            else (regs.get? 2, regs.get? 0, regs.get? 1, none))
          else if regs.length = 4 then
            (if nat_contains fmt.flags Flags.ENC_MR ∨ memarg = some 2 then
              (regs.get? 2, regs.get? 0, regs.get? 1, regs.get? 3)
            else (regs.get? 3, regs.get? 0, regs.get? 1, regs.get? 2))
          else (none, none, none, none)
      .ok (slots.1, slots.2.1, slots.2.2.1, slots.2.2.2, immediates)

def MOD_DIRECT : Nat := 3
def MOD_NODISP : Nat := 0
def MOD_NOBASE : Nat := 0
def MOD_DISP8 : Nat := 1
def MOD_DISP32 : Nat := 2

/-- The Rust `scale as u8` cast (a two-complement wrap of an `isize`). -/
def int_as_u8 (i : Int) : Nat := (i % 256).toNat

/-- Mirrors `compile_modrm_sib` in compiler.rs. -/
def compile_modrm_sib (ctx : Context) (mode : Nat) (reg1 reg2 : RegKind) : M Unit := do
  let byte := (mode <<< 6) ||| ((reg1.encode &&& 7) <<< 3) ||| (reg2.encode &&& 7)
  if ¬ reg1.is_dynamic ∧ ¬ reg2.is_dynamic then
    M.push (Stmt.u8 byte)
  else do
    let b0 := Value.Byte byte
    let b1 ← (match reg1 with
      | .dynamic _ e => do
        let x ← M.mask_shift_or_else_err b0 e 7 3
        M.pure (Value.expr x)
      | _ => M.pure b0)
    let b2 ← (match reg2 with
      | .dynamic _ e => do
        let x ← M.mask_shift_or_else_err b1 e 7 0
        M.pure (Value.expr x)
      | _ => M.pure b1)
    if b2.size ≠ Size.byte then M.panic "assertion failed"
    else M.push (Stmt.const b2)

/-- Mirrors `compile_rex` in compiler.rs. -/
def compile_rex (ctx : Context) (rex_w : Bool) (reg rm : Option SizedArg) : M Unit := do
  let reg_k := match reg with
    | some (SizedArg.direct r) => r.kind
    | _ => RegKind.from_number 0
  let base_k := match rm with
    | some (SizedArg.direct r) => r.kind
    | some (SizedArg.indirect _ base _ _) =>
      (match base with | some b => b.kind | none => RegKind.from_number 0)
    | _ => RegKind.from_number 0
  let index_k := match rm with
    | some (SizedArg.indirect _ _ index _) =>
      (match index with | some (i, _, _) => i.kind | none => RegKind.from_number 0)
    | _ => RegKind.from_number 0
  let rex := 0x40 ||| ((if rex_w then 1 else 0) <<< 3) |||
             ((reg_k.encode &&& 8) >>> 1) |||
             ((index_k.encode &&& 8) >>> 2) |||
             ((base_k.encode &&& 8) >>> 3)
  if ¬ reg_k.is_dynamic ∧ ¬ index_k.is_dynamic ∧ ¬ base_k.is_dynamic then
    M.push (Stmt.u8 rex)
  else do
    let r0 := Value.Byte rex
    let r1 ← (match reg_k with
      | .dynamic _ e => do
        let x ← M.mask_shift_or_else_err r0 e 8 (-1)
        M.pure (Value.expr x)
      | _ => M.pure r0)
    let r2 ← (match index_k with
      | .dynamic _ e => do
        let x ← M.mask_shift_or_else_err r1 e 8 (-2)
        M.pure (Value.expr x)
      | _ => M.pure r1)
    let r3 ← (match base_k with
      | .dynamic _ e => do
        let x ← M.mask_shift_or_else_err r2 e 8 (-3)
        M.pure (Value.expr x)
      | _ => M.pure r2)
    if r3.size ≠ Size.byte then M.panic "assertion failed"
    else M.push (Stmt.const r3)

/-- The `u8` bitwise complement. -/
def u8_not (x : Nat) : Nat := x ^^^ 255

/-- Mirrors `compile_vex_xop` in compiler.rs. -/
def compile_vex_xop (ctx : Context) (data : Opdata) (reg rm : Option SizedArg)
    (map_sel : Nat) (rex_w : Bool) (vvvv : Option SizedArg) (vex_l : Bool) (pfx : Nat) :
    M Unit := do
  let reg_k := match ctx.mode, reg with
    | X86Mode.Long, some (SizedArg.direct r) => r.kind
    | _, _ => RegKind.from_number 0
  let base_k := match ctx.mode, rm with
    | X86Mode.Long, some (SizedArg.direct r) => r.kind
    | X86Mode.Long, some (SizedArg.indirect _ base _ _) =>
      (match base with | some b => b.kind | none => RegKind.from_number 0)
    | _, _ => RegKind.from_number 0
  let index_k := match ctx.mode, rm with
    | X86Mode.Long, some (SizedArg.indirect _ _ index _) =>
      (match index with | some (i, _, _) => i.kind | none => RegKind.from_number 0)
    | _, _ => RegKind.from_number 0
  let byte1 := match ctx.mode with
    | X86Mode.Long =>
      (map_sel &&& 0x1F) ||| ((u8_not reg_k.encode &&& 8) <<< 4) |||
      ((u8_not index_k.encode &&& 8) <<< 3) ||| ((u8_not base_k.encode &&& 8) <<< 2)
    | X86Mode.Protected => (map_sel &&& 0x1F) ||| 0xE0
  let vvvv_k := match vvvv with
    | some (SizedArg.direct r) => r.kind
    | _ => RegKind.from_number 0
  let byte2 := (pfx &&& 0x3) ||| ((if rex_w then 1 else 0) <<< 7) |||
               ((u8_not vvvv_k.encode &&& 0xF) <<< 3) ||| ((if vex_l then 1 else 0) <<< 2)
  if nat_contains data.flags Flags.VEX_OP ∧ (byte1 &&& 0x7F) = 0x61 ∧ (byte2 &&& 0x80) = 0 ∧
      ((¬ index_k.is_dynamic ∧ ¬ base_k.is_dynamic) ∨ ctx.mode = X86Mode.Protected) then do
    -- 2-byte vex
    M.push (Stmt.u8 0xC5)
    let b1 := (byte1 &&& 0x80) ||| (byte2 &&& 0x7F)
    if ¬ reg_k.is_dynamic ∧ ¬ vvvv_k.is_dynamic then M.push (Stmt.u8 b1)
    else do
      let v0 := Value.Byte b1
      let v1 ← (match reg_k with
        | .dynamic _ e => do
          let x ← M.mask_shift_inverted_and_else_err v0 e 8 4
          M.pure (Value.expr x)
        | _ => M.pure v0)
      let v2 ← (match vvvv_k with
        | .dynamic _ e => do
          let x ← M.mask_shift_inverted_and_else_err v1 e 0xF 3
          M.pure (Value.expr x)
        | _ => M.pure v1)
      if v2.size ≠ Size.byte then M.panic "assertion failed"
      else M.push (Stmt.const v2)
  else do
    M.push (Stmt.u8 (if nat_contains data.flags Flags.VEX_OP then 0xC4 else 0x8F))
    (if ctx.mode = X86Mode.Long ∧ (reg_k.is_dynamic ∨ index_k.is_dynamic ∨ base_k.is_dynamic)
     then do
      let v0 := Value.Byte byte1
      let v1 ← (match reg_k with
        | .dynamic _ e => do
          let x ← M.mask_shift_inverted_and_else_err v0 e 8 4
          M.pure (Value.expr x)
        | _ => M.pure v0)
      let v2 ← (match index_k with
        | .dynamic _ e => do
          let x ← M.mask_shift_inverted_and_else_err v1 e 8 3
          M.pure (Value.expr x)
        | _ => M.pure v1)
      let v3 ← (match base_k with
        | .dynamic _ e => do
          let x ← M.mask_shift_inverted_and_else_err v2 e 8 2
          M.pure (Value.expr x)
        | _ => M.pure v2)
      if v3.size ≠ Size.byte then M.panic "assertion failed"
      else M.push (Stmt.const v3)
     else M.push (Stmt.u8 byte1))
    if vvvv_k.is_dynamic then do
      let v0 := Value.Byte byte2
      let v1 ← (match vvvv_k with
        | .dynamic _ e => do
          let x ← M.mask_shift_inverted_and_else_err v0 e 0xF 3
          M.pure (Value.expr x)
        | _ => M.pure v0)
      if v1.size ≠ Size.byte then M.panic "assertion failed"
      else M.push (Stmt.const v1)
    else M.push (Stmt.u8 byte2)

/-- Mirrors `compile_sib_dynscale` in compiler.rs. -/
def compile_sib_dynscale (ctx : Context) (scale : Nat) (scale_expr : Expr)
    (reg1 reg2 : RegKind) : M Unit := do
  let byte := ((reg1.encode &&& 7) <<< 3) ||| (reg2.encode &&& 7)
  let b0 := Value.Byte byte
  let b1 ← (match reg1 with
    | .dynamic _ e => do
      let x ← M.mask_shift_or_else_err b0 e 7 3
      M.pure (Value.expr x)
    | _ => M.pure b0)
  let b2 ← (match reg2 with
    | .dynamic _ e => do
      let x ← M.mask_shift_or_else_err b1 e 7 0
      M.pure (Value.expr x)
    | _ => M.pure b1)
  let scaled ← M.mul_else_err scale_expr (Value.Byte scale)
  let (expr1, expr2) ← M.dynscale scaled b2
  M.push (Stmt.stmt expr1)
  if expr2.repr.size ≠ Size.byte then M.panic "assertion failed"
  else M.push (Stmt.const (Value.expr expr2))

/-- Relocation-offset bump by the size of a freshly emitted field. -/
def Reloc.bump (r : Reloc) (n : Nat) : Reloc := ⟨r.target, r.offset + n, r.size, r.kind⟩

/-- Mirrors the relocation push loop at the end of `compile_instruction`
(compiler.rs lines 550-559): the payload array is
`[offset, size.in_bytes(), kind.to_id()]`, truncated to its first two bytes
in Long (64-bit) mode. -/
def push_relocations (mode : X86Mode) : List Reloc → M Unit
| [] => M.pure ()
| r :: rest => do
  let data := [r.offset, r.size.in_bytes, r.kind.to_id]
  let payload := match mode with
    | X86Mode.Protected => data
    | X86Mode.Long => data.take 2
  M.push (r.target.encode payload)
  push_relocations mode rest

/-- The `disp.convert(repr).expect("FIXME")` pattern of the displacement
emission paths. -/
def expect_convert (v : Value) (repr : NumericRepr) : M Value :=
  M.liftCR ((v.convert repr).bind fun o =>
    match o with
    | some v' => CResult.ok v'
    | none => CResult.panicked "FIXME")

/-- Mirrors the indirect-ModRM(+SIB) arm of `compile_instruction`
(compiler.rs lines 300-451); returns the relocations the arm creates. -/
def compile_indirect (ctx : Context) (addr_size : Size) (disp_size : Option Size)
    (base : Option Register) (index : Option RIndex) (disp : Option Value)
    (reg_k : RegKind) : M (List Reloc) := do
  let mode_vsib := match index with
    | some (i, _, _) => decide (i.kind.family = RegFamily.xmm)
    | none => false
  let mode_16bit := decide (addr_size = Size.word)
  let mode_rip_relative := match base with
    | some b => decide (b.kind.family = RegFamily.rip)
    | none => false
  let mode_rbp_base := match base with
    | some b => b.is_id RegId.RBP || b.is_id RegId.R13 || b.kind.is_dynamic
    | none => false
  if mode_vsib then do
    let (ireg, scale, scale_expr) ← (match index with
      | some t => M.pure t
      | none => M.panic "unwrap")
    let bm := match base with
      | some b => (b.kind, (match disp, disp_size with
        | some _, some Size.byte => MOD_DISP8
        | some _, _ => MOD_DISP32
        | none, _ => MOD_DISP8))
      | none => (RegKind.static RegId.RBP, MOD_NOBASE)
    -- always need a SIB byte for VSIB addressing
    compile_modrm_sib ctx bm.2 reg_k (RegKind.static RegId.RSP)
    (match scale_expr with
     | some e => compile_sib_dynscale ctx (int_as_u8 scale) e ireg.kind bm.1
     | none =>
       (match encode_scale scale with
        | some s => compile_modrm_sib ctx s ireg.kind bm.1
        | none => M.panic "unwrap"))
    (match disp with
     | some d => do
       let repr := if bm.2 = MOD_DISP8 then NumericRepr.I8 else NumericRepr.I32
       let d' ← expect_convert d repr
       M.push (Stmt.const d')
     | none =>
       if bm.2 = MOD_DISP8 then M.push (Stmt.u8 0) else M.push (Stmt.u32 0))
    M.pure []
  else if mode_16bit then do
    -- the index/base combination has been encoded in the base register
    let base_k ← (match base with
      | some b => M.pure b.kind
      | none => M.panic "unwrap")
    let mode := match disp, disp_size with
      | some _, some Size.byte => MOD_DISP8
      | some _, _ => MOD_DISP32
      | none, _ => if mode_rbp_base then MOD_DISP8 else MOD_NODISP
    compile_modrm_sib ctx mode reg_k base_k
    (match disp with
     | some d => do
       let repr := if mode = MOD_DISP8 then NumericRepr.I8 else NumericRepr.I16
       let d' ← expect_convert d repr
       M.push (Stmt.const d')
     | none => if mode = MOD_DISP8 then M.push (Stmt.u8 0) else M.pure ())
    M.pure []
  else if mode_rip_relative then do
    compile_modrm_sib ctx MOD_NODISP reg_k (RegKind.static RegId.RBP)
    (match ctx.mode with
     | X86Mode.Long => do
       (match disp with
        | some d => do
          let d' ← expect_convert d NumericRepr.I32
          M.push (Stmt.const d')
        | none => M.push (Stmt.u32 0))
       M.pure []
     | X86Mode.Protected => do
       M.push (Stmt.u32 0)
       M.pure [(⟨⟨JumpKind.bare (Value.Byte 0), none⟩, 0, Size.dword, RelocationKind.abs⟩ : Reloc)])
  else do
    -- normal addressing
    let no_base := base = none
    let mode := if mode_rbp_base ∧ disp = none then MOD_DISP8
      else if disp = none ∨ no_base then MOD_NODISP
      else if disp_size = some Size.byte then MOD_DISP8
      else MOD_DISP32
    (match index with
     | some (ireg, scale, scale_expr) => do
       let base_k := match base with
         | some b => b.kind
         | none => RegKind.static RegId.RBP
       -- escape into the SIB byte
       compile_modrm_sib ctx mode reg_k (RegKind.static RegId.RSP)
       (match scale_expr with
        | some e => compile_sib_dynscale ctx (int_as_u8 scale) e ireg.kind base_k
        | none =>
          (match encode_scale scale with
           | some s => compile_modrm_sib ctx s ireg.kind base_k
           | none => M.panic "unwrap"))
     | none =>
       (match base with
        | some b => compile_modrm_sib ctx mode reg_k b.kind
        | none =>
          (match ctx.mode with
           | X86Mode.Protected => compile_modrm_sib ctx mode reg_k (RegKind.static RegId.RBP)
           | X86Mode.Long => do
             compile_modrm_sib ctx mode reg_k (RegKind.static RegId.RSP)
             compile_modrm_sib ctx 0 (RegKind.static RegId.RSP) (RegKind.static RegId.RBP))))
    (match disp with
     | some d => do
       let repr := if mode = MOD_DISP8 then NumericRepr.I8 else NumericRepr.I32
       let d' ← expect_convert d repr
       M.push (Stmt.const d')
     | none =>
       if no_base then M.push (Stmt.u32 0)
       else if mode = MOD_DISP8 then M.push (Stmt.u8 0)
       else M.pure ())
    M.pure []

/-- Mirrors the register-in-immediate emission of `compile_instruction`
(compiler.rs lines 477-518): possibly merges the first immediate into the
register byte, pushes it, and bumps the relocation offsets. -/
def compile_ireg (ctx : Context) (ireg : Option SizedArg) (iargs : List SizedArg)
    (relocs : List Reloc) : M (List SizedArg × List Reloc) :=
  match ireg with
  | some (SizedArg.direct r) => do
    let ik := r.kind
    let b0 := Value.Byte (ik.encode <<< 4)
    let b1 ← (match ik with
      | RegKind.dynamic _ e => do
        let x ← M.mask_shift_or_else_err b0 e 0xF 4
        M.pure (Value.expr x)
      | _ => M.pure b0)
    let merged ← (match iargs with
      | [] => M.pure (b1, ([] : List SizedArg))
      | first :: rest =>
        (match first with
         | SizedArg.immediate (Value.expr e) =>
           if e.repr.size = Size.byte then do
             let x ← M.mask_shift_or_else_err b1 e 0xF 0
             M.pure (Value.expr x, rest)
           else M.panic "formatting data size mismatch"
         | SizedArg.immediate (Value.number value) =>
           if value.repr.size = Size.byte then do
             let v8 ← M.liftCR value.as_u8
             let masked := v8 &&& 0xF
             let b2 ← (match b1 with
               | Value.expr be => do
                 let x ← M.bit_or_else_err be (Value.Byte masked)
                 M.pure (Value.expr x)
               | Value.number bn => do
                 let n8 ← M.liftCR bn.as_u8
                 M.pure (Value.Byte (n8 ||| masked)))
             M.pure (b2, rest)
           else M.panic "formatting data size mismatch"
         | _ => M.panic "bad formatting data"))
    let bfinal ← M.liftCR ((merged.1.convert NumericRepr.U8).bind fun o =>
      match o with
      | some v => CResult.ok v
      | none => CResult.panicked "unwrap")
    M.push (Stmt.const bfinal)
    M.pure (merged.2, relocs.map fun rl => rl.bump 1)
  | _ => M.pure (iargs, relocs)

/-- Mirrors the trailing immediate/jump-target loop of `compile_instruction`
(compiler.rs lines 520-548). -/
def compile_imm_args (ctx : Context) : List SizedArg → List Reloc → M (List Reloc)
| [], relocs => M.pure relocs
| arg :: rest, relocs =>
  match arg with
  | SizedArg.immediate value => do
    M.push (Stmt.const value)
    compile_imm_args ctx rest (relocs.map fun r => r.bump value.size.in_bytes)
  | SizedArg.jumpTarget jump size => do
    M.push (Stmt.zeroed size)
    let relocs := relocs.map fun r => r.bump size.in_bytes
    (match jump.kind with
     | JumpKind.bare _ =>
       (match ctx.mode with
        | X86Mode.Protected =>
          compile_imm_args ctx rest (relocs ++ [⟨jump, 0, size, RelocationKind.ext⟩])
        | X86Mode.Long => M.throw (.generic "Extern relocations are not supported in x64 mode"))
     | _ => compile_imm_args ctx rest (relocs ++ [⟨jump, 0, size, RelocationKind.rel⟩]))
  | _ => M.panic "bad immediate data"

/-- The default effective address size when the sanitizer returned none. -/
def addr_size_default (mode : X86Mode) (o : Option Size) : Size :=
  o.getD (match mode with
    | X86Mode.Long => Size.qword
    | X86Mode.Protected => Size.dword)

/-- Mirrors the address-size-override determination at the top of
`compile_instruction` (compiler.rs lines 102-113). -/
def pref_addr_check (mode : X86Mode) (op : Ident) (addr_size : Size) : CResult Bool :=
  match mode, addr_size with
  | X86Mode.Long, Size.qword => .ok false
  | X86Mode.Long, Size.dword => .ok true
  | X86Mode.Protected, Size.dword => .ok false
  | X86Mode.Protected, Size.word => .ok true
  | m, s => .err (.unsupportedOperandInThisMode op.name s m none)

/-- Mirrors `compile_instruction` in compiler.rs: the full pipeline from
clean arguments to pushed statements and relocations, run against the
concrete `State` expression builder. -/
def compile_instruction (ctx : Context) (instruction : Instruction) (args : List CleanArg) :
    M Unit := do
  match instruction.idents.getLast? with
  | none => M.panic "unwrap"
  | some op => do
    let prefixes := instruction.idents.dropLast
    let op_span := ErrorSpan.instructionPart prefixes.length
    let (addr_size_opt, args) ← M.liftEM (sanitize_indirects_and_sizes ctx args)
    let addr_size := addr_size_default ctx.mode addr_size_opt
    let pref_addr ← M.liftCR (pref_addr_check ctx.mode op addr_size)
    let data ← M.liftEM (match_op_format ctx op_span op.name args)
    if ¬ nat_contains ctx.features data.features then
      M.throw (.disabledFeatures (nat_diff data.features ctx.features))
    else do
      let (pref_mod, pref_seg) ← M.liftEM (get_legacy_prefixes data prefixes)
      let (op_size, args) ← M.liftCR (size_operands data args)
      let psrv ← (if nat_intersects data.flags
            (Flags.AUTO_SIZE ||| Flags.AUTO_NO32 ||| Flags.AUTO_REXW ||| Flags.AUTO_VEXL) then do
          let os ← (match op_size with
            | some s => M.pure s
            | none => M.panic "Bad formatting data? No wildcard sizes")
          (match ctx.mode with
           | X86Mode.Protected =>
             if os = Size.qword then
               M.throw (.unsupportedOperandInThisMode op.name os X86Mode.Protected
                 (some X86Mode.Long))
             else M.pure ()
           | X86Mode.Long => M.pure ())
          if nat_contains data.flags Flags.AUTO_NO32 then
            (match os, ctx.mode with
             | Size.word, _ => M.pure (true, false, false)
             | Size.qword, X86Mode.Long => M.pure (false, false, false)
             | Size.dword, X86Mode.Protected => M.pure (false, false, false)
             | Size.dword, X86Mode.Long =>
               M.throw (.unsupportedOperandInThisMode op.name Size.dword X86Mode.Long
                 (some X86Mode.Protected))
             | _, _ => M.panic "bad formatting data")
          else if nat_contains data.flags Flags.AUTO_REXW then
            (if os = Size.qword then M.pure (false, true, false)
             else if os ≠ Size.dword then
               M.throw (.unsupportedOperandInThisMode op.name os ctx.mode none)
             else M.pure (false, false, false))
          else if nat_contains data.flags Flags.AUTO_VEXL then
            (if os = Size.hword then M.pure (false, false, true)
             else if os ≠ Size.oword then M.panic "bad formatting data"
             else M.pure (false, false, false))
          else if os = Size.word then M.pure (true, false, false)
          else if os = Size.qword then M.pure (false, true, false)
          else if os ≠ Size.dword then M.panic "bad formatting data"
          else M.pure (false, false, false)
        else M.pure (false, false, false))
      -- mandatory prefixes
      let pref_size := psrv.1 || nat_contains data.flags Flags.WORD_SIZE
      let rex_w := psrv.2.1 || nat_contains data.flags Flags.WITH_REXW
      let vex_l := psrv.2.2 || nat_contains data.flags Flags.WITH_VEXL
      let pref_addr := pref_addr || nat_contains data.flags Flags.PREF_67
      let pref_mod := if nat_contains data.flags Flags.PREF_F0 then some 0xF0
        else if nat_contains data.flags Flags.PREF_F2 then some 0xF2
        else if nat_contains data.flags Flags.PREF_F3 then some 0xF3
        else pref_mod
      let need_rex ← M.liftCR (check_rex ctx data args rex_w)
      let (rm, reg, vvvv, ireg, iargs) ← M.liftCR (extract_args data args)
      -- ops that encode the final byte in an immediate
      let io_ops ← (if nat_intersects data.flags Flags.IMM_OP then
          (match data.ops.getLast? with
           | some imm => M.pure (some imm, data.ops.dropLast)
           | none => M.panic "bad formatting data")
        else M.pure ((none : Option Nat), data.ops))
      let immediate_opcode := io_ops.1
      -- legacy-only prefixes
      (match pref_seg with | some p => M.push (Stmt.u8 p) | none => M.pure ())
      (if pref_addr then M.push (Stmt.u8 0x67) else M.pure ())
      let ops ← (if nat_intersects data.flags (Flags.VEX_OP ||| Flags.XOP_OP) then do
          let pfx := if pref_size then 1
            else if pref_mod = some 0xF3 then 2
            else if pref_mod = some 0xF2 then 3
            else 0
          (match io_ops.2 with
           | map_sel :: tail => do
             compile_vex_xop ctx data reg rm map_sel rex_w vvvv vex_l pfx
             M.pure tail
           | [] => M.panic "bad formatting data")
        else do
          (match pref_mod with | some p => M.push (Stmt.u8 p) | none => M.pure ())
          (if pref_size then M.push (Stmt.u8 0x66) else M.pure ())
          (if need_rex then
            (if ctx.mode = X86Mode.Protected then
              M.throw (.unsupportedOperandInThisMode op.name Size.qword X86Mode.Protected
                (some X86Mode.Long))
            else compile_rex ctx rex_w reg rm)
          else M.pure ())
          M.pure io_ops.2)
      -- rm embedded in the last opcode byte, or plain opcode push
      let rm ← (if nat_contains data.flags Flags.SHORT_ARG then
          (match ops.getLast? with
           | none => M.panic "bad formatting data"
           | some last => do
             M.push (Stmt.extend ops.dropLast)
             let rm_k ← (match rm with
               | some (SizedArg.direct r) => M.pure r.kind
               | _ => M.panic "bad formatting data")
             (match rm_k with
              | RegKind.dynamic _ e => do
                let ex ← M.mask_shift_or_else_err (Value.Byte last) e 7 0
                M.push (Stmt.const (Value.expr ⟨ex.idx, NumericRepr.U8⟩))
              | _ =>
                -- `last + (rm_k.encode() & 7)` in u8 (the table data keeps it in range)
                M.push (Stmt.u8 ((last + (rm_k.encode &&& 7)) % 256)))
             M.pure (none : Option SizedArg))
        else do
          M.push (Stmt.extend ops)
          M.pure rm)
      -- ModRM (+SIB) addressing
      let relocs ← (match rm with
        | some (SizedArg.direct rmreg) => do
          let reg_k := match reg with
            | some (SizedArg.direct r) => r.kind
            | _ => RegKind.from_number data.reg
          compile_modrm_sib ctx MOD_DIRECT reg_k rmreg.kind
          M.pure ([] : List Reloc)
        | some (SizedArg.indirect disp_size base index disp) => do
          let reg_k := match reg with
            | some (SizedArg.direct r) => r.kind
            | _ => RegKind.from_number data.reg
          compile_indirect ctx addr_size disp_size base index disp reg_k
        | some (SizedArg.indirectJumpTarget jump) => do
          let reg_k := match reg with
            | some (SizedArg.direct r) => r.kind
            | _ => RegKind.from_number data.reg
          compile_modrm_sib ctx MOD_NODISP reg_k (RegKind.static RegId.RBP)
          M.push (Stmt.u32 0)
          (match ctx.mode with
           | X86Mode.Long => M.pure ([⟨jump, 0, Size.dword, RelocationKind.rel⟩] : List Reloc)
           | X86Mode.Protected => M.pure [⟨jump, 0, Size.dword, RelocationKind.abs⟩])
        | _ => M.pure [])
      -- opcode encoded after the displacement
      let relocs ← (match immediate_opcode with
        | some code => do
          M.push (Stmt.u8 code)
          M.pure (relocs.map fun rl => rl.bump 1)
        | none => M.pure relocs)
      -- register in immediate argument
      let ir ← compile_ireg ctx ireg iargs relocs
      -- immediates
      let relocs ← compile_imm_args ctx ir.1 ir.2
      -- push relocations
      push_relocations ctx.mode relocs

/-- Mirrors `Archx64` in src/lib/src/arch/x64/mod.rs (the active feature
set). -/
structure Archx64 where
  features : Nat
deriving DecidableEq

/-- Mirrors `Archx86` in src/lib/src/arch/x64/mod.rs. -/
structure Archx86 where
  features : Nat
deriving DecidableEq

/-- The warning `set_features` prints on stderr for an unrecognised feature
name. -/
def unknown_feature_msg (arch ident : String) : String :=
  "Architecture " ++ arch ++ " does not support feature " ++ ident

/-- The feature loop shared verbatim by `Archx64::set_features` and
`Archx86::set_features`: starting from the empty set, OR every recognised
name in; an unknown name contributes a warning and is skipped. -/
def set_features_fold (arch_name : String) (features : List String) : Nat × List String :=
  features.foldl (fun acc ident =>
    match Features.from_str ident with
    | some f => (acc.1 ||| f, acc.2)
    | none => (acc.1, acc.2 ++ [unknown_feature_msg arch_name ident])) (0, [])

/-- Mirrors `Archx64::set_features`: the active feature set is replaced by
the fold result (the previous value of `a.features` is never read); the
emitted warnings are returned alongside. -/
def Archx64.set_features (a : Archx64) (features : List String) : Archx64 × List String :=
  ((⟨(set_features_fold "x64" features).1⟩ : Archx64), (set_features_fold "x64" features).2)

/-- Mirrors `Archx86::set_features`. -/
def Archx86.set_features (a : Archx86) (features : List String) : Archx86 × List String :=
  ((⟨(set_features_fold "x86" features).1⟩ : Archx86), (set_features_fold "x86" features).2)

/-
 * Theorems about the embedded program
 -/

/-- Flatten a statement stream into its constant bytes: a byte-sized number
constant contributes its value, `extend` its raw bytes; any other statement
(in particular every relocation statement) makes the result `none`. -/
def stmts_bytes : List Stmt → Option (List Nat)
| [] => some []
| Stmt.const (Value.number n) :: rest =>
  if n.repr.size = Size.byte then (stmts_bytes rest).map fun tl => n.value :: tl
  else none
| Stmt.extend bs :: rest => (stmts_bytes rest).map fun tl => bs ++ tl
| _ => none

/-- The extension invariant the spec claims for `Number`: an unsigned (or
sign-bit-clear signed) value fits its size; a negative signed value carries
all high bits up to bit 63. -/
def Number.spec_extended (n : Number) : Prop :=
  let bits := 8 * n.repr.size.in_bytes
  if n.repr.signed = true ∧ Nat.testBit n.value (bits - 1) = true then
    2 ^ 64 - 2 ^ bits ≤ n.value ∧ n.value < 2 ^ 64
  else n.value < 2 ^ bits

instance (n : Number) : Decidable n.spec_extended := by
  unfold Number.spec_extended
  infer_instance

/-- C1: compiling `mov rax, rbx` (two static QWORD legacy registers, no
prefixes) in Long (64-bit) mode succeeds, and the statement stream receives
exactly the three bytes 0x48 (REX.W), 0x89 (opcode), 0xD8 (ModRM) — one
`Const` byte, one `Extend`, one `Const` byte — no diagnostics and no
relocation statements (flattening the stream to bytes succeeds and yields
exactly [0x48, 0x89, 0xD8]). -/
theorem c1_mov_rax_rbx_encoding :
    compile_instruction ⟨X86Mode.Long, 0⟩ ⟨[⟨"mov"⟩]⟩
      [CleanArg.direct ⟨Size.qword, RegKind.static RegId.RAX⟩,
       CleanArg.direct ⟨Size.qword, RegKind.static RegId.RBX⟩] ⟨[], []⟩
    = (CResult.ok (), ⟨[Stmt.u8 0x48, Stmt.extend [0x89], Stmt.u8 0xD8], []⟩) ∧
    stmts_bytes [Stmt.u8 0x48, Stmt.extend [0x89], Stmt.u8 0xD8] = some [0x48, 0x89, 0xD8] := by
  constructor
  · rfl
  · rfl

/-- C4 (code bug): on `mov rax, [rbx + rcx*3]` in Long mode — an index with
an unencodable static scale 3 that survives the rewrites of the sanitizer (a
base is present, so no descaling applies) — `compile_instruction` emits the
"Impossible scale" diagnostic but then panics (the `encode_scale(scale)
.unwrap()` on line 421 of compiler.rs) instead of returning an error. -/
theorem c4_impossible_scale_panics :
    compile_instruction ⟨X86Mode.Long, 0⟩ ⟨[⟨"mov"⟩]⟩
      [CleanArg.direct ⟨Size.qword, RegKind.static RegId.RAX⟩,
       CleanArg.indirect false none none (some ⟨Size.qword, RegKind.static RegId.RBX⟩)
         (some (⟨Size.qword, RegKind.static RegId.RCX⟩, 3, none)) none] ⟨[], []⟩
    = (CResult.panicked "unwrap",
       ⟨[Stmt.u8 0x48, Stmt.extend [0x8B], Stmt.u8 0x04], ["Impossible scale"]⟩) := by
  rfl

/-- C5 (code bug): the `Number` extension machinery does not maintain the
claimed invariant.  `Number::mask` computes `ALL_BITS` as
`size_of::<u64>() = 8` (bytes, not bits), so (1) `cast_as` on any size wider
than BYTE panics in `checked_sub(len).unwrap()` — here WORD; (2) for BYTE
the mask is all 64 ones, so a byte value with stale high bits is returned
unchanged instead of being zero-extended; and (3) `resize` in the narrowing
direction keeps the full stored pattern, violating the invariant even though
the input satisfied it. -/
theorem c5_number_extension_broken :
    (Number.word 1).cast_as NumericRepr.U16 = CResult.panicked "unwrap" ∧
    ((Number.from_u64_and_repr 0x1FF NumericRepr.U8).cast_as NumericRepr.U8
      = CResult.ok ⟨0x1FF, NumericRepr.U8⟩ ∧
     ¬ (⟨0x1FF, NumericRepr.U8⟩ : Number).spec_extended) ∧
    ((Number.from_u64_and_repr 0x100 NumericRepr.I32).spec_extended ∧
     ¬ ((Number.from_u64_and_repr 0x100 NumericRepr.I32).resize Size.byte).spec_extended) := by
  refine ⟨by decide, ⟨by decide, by decide⟩, by decide, by decide⟩

/-- C10: `Value::convert` on a symbolic value (`Value::Expr`) succeeds for
every target representation and returns the same expression index with the
new representation — the range check (and hence any failure) of `convert`
exists only on the fully-known `Number` side. -/
theorem c10_value_convert_expr (idx : Nat) (r r' : NumericRepr) :
    Value.convert (Value.expr ⟨idx, r⟩) r' = CResult.ok (some (Value.expr ⟨idx, r'⟩)) := rfl

theorem M.bind_apply {α β : Type} (x : M α) (f : α → M β) (st : CompState) :
    (x >>= f) st = match x st with
      | (.ok a, st') => f a st'
      | (.err e, st') => (.err e, st')
      | (.panicked m, st') => (.panicked m, st') := rfl

theorem M.push_apply (s : Stmt) (st : CompState) :
    M.push s st = (.ok (), ⟨st.stmts ++ [s], st.diags⟩) := rfl

/-- C2: every relocation record (target, offset, size, kind) pushed at the
end of `compile_instruction` reaches `Jump::encode` with the payload
`[offset, size-in-bytes]` (two bytes) in Long mode and
`[offset, size-in-bytes, kind-id]` (three bytes) in Protected mode, where
the kind ids are 0 = Relative, 1 = Absolute, 2 = Extern. -/
theorem c2_relocation_payload (mode : X86Mode) (rs : List Reloc) (st : CompState) :
    push_relocations mode rs st
      = (CResult.ok (), ⟨st.stmts ++ rs.map (fun r => r.target.encode
          (match mode with
           | X86Mode.Long => [r.offset, r.size.in_bytes]
           | X86Mode.Protected => [r.offset, r.size.in_bytes, r.kind.to_id])), st.diags⟩) ∧
    RelocationKind.to_id RelocationKind.rel = 0 ∧
    RelocationKind.to_id RelocationKind.abs = 1 ∧
    RelocationKind.to_id RelocationKind.ext = 2 := by
  refine ⟨?_, rfl, rfl, rfl⟩
  induction rs generalizing st with
  | nil => simp [push_relocations, M.pure]
  | cons r rest ih =>
    cases mode <;>
      simp [push_relocations, M.bind_apply, M.push_apply, ih, List.take]

theorem set_features_fold_fst (name : String) (L : List String) :
    ∀ (acc : Nat) (ws : List String),
      (L.foldl (fun acc ident =>
        match Features.from_str ident with
        | some f => (acc.1 ||| f, acc.2)
        | none => (acc.1, acc.2 ++ [unknown_feature_msg name ident])) (acc, ws)).1
      = L.foldl (fun a s => a ||| (Features.from_str s).getD 0) acc := by
  induction L with
  | nil => intro acc ws; rfl
  | cons h t ih =>
    intro acc ws
    cases hfs : Features.from_str h with
    | some f => simp [List.foldl, hfs, ih]
    | none => simp [List.foldl, hfs, ih]

theorem set_features_fold_snd (name : String) (L : List String) :
    ∀ (acc : Nat) (ws : List String),
      (L.foldl (fun acc ident =>
        match Features.from_str ident with
        | some f => (acc.1 ||| f, acc.2)
        | none => (acc.1, acc.2 ++ [unknown_feature_msg name ident])) (acc, ws)).2
      = ws ++ (L.filter fun s => (Features.from_str s).isNone).map (unknown_feature_msg name) := by
  induction L with
  | nil => intro acc ws; simp
  | cons h t ih =>
    intro acc ws
    cases hfs : Features.from_str h with
    | some f => simp [List.foldl, List.filter, hfs, ih]
    | none => simp [List.foldl, List.filter, hfs, ih]

theorem feature_union_testBit (i : Nat) (L : List String) :
    ∀ (acc : Nat),
      Nat.testBit (L.foldl (fun a s => a ||| (Features.from_str s).getD 0) acc) i
      = (Nat.testBit acc i || L.any fun s => Nat.testBit ((Features.from_str s).getD 0) i) := by
  induction L with
  | nil => intro acc; simp
  | cons h t ih => intro acc; simp [List.foldl, ih, Nat.testBit_lor, Bool.or_assoc]

/-- C8: `set_features` fully replaces the active feature set with the union
of the recognised names in its argument, independently of any prior state
(first and fifth conjuncts: the result does not depend on the receiver), so
it is idempotent and non-accumulating (second and sixth conjuncts); the
resulting bit set is exactly the union of the recognised features of the
list (third and seventh conjuncts); unrecognised names produce warnings, one
per name, and never a failure (fourth and eighth conjuncts — the function is
total). -/
theorem c8_set_features_replaces :
    (∀ (a a' : Archx64) (L : List String), a.set_features L = a'.set_features L) ∧
    (∀ (a : Archx64) (L : List String),
      ((a.set_features L).1).set_features L = a.set_features L) ∧
    (∀ (a : Archx64) (L : List String) (i : Nat),
      Nat.testBit ((a.set_features L).1.features) i = true ↔
        ∃ s ∈ L, Nat.testBit ((Features.from_str s).getD 0) i = true) ∧
    (∀ (a : Archx64) (L : List String),
      (a.set_features L).2
        = (L.filter fun s => (Features.from_str s).isNone).map (unknown_feature_msg "x64")) ∧
    (∀ (a a' : Archx86) (L : List String), a.set_features L = a'.set_features L) ∧
    (∀ (a : Archx86) (L : List String),
      ((a.set_features L).1).set_features L = a.set_features L) ∧
    (∀ (a : Archx86) (L : List String) (i : Nat),
      Nat.testBit ((a.set_features L).1.features) i = true ↔
        ∃ s ∈ L, Nat.testBit ((Features.from_str s).getD 0) i = true) ∧
    (∀ (a : Archx86) (L : List String),
      (a.set_features L).2
        = (L.filter fun s => (Features.from_str s).isNone).map (unknown_feature_msg "x86")) := by
  refine ⟨fun a a' L => rfl, fun a L => rfl, ?_, ?_, fun a a' L => rfl, fun a L => rfl, ?_, ?_⟩
  · intro a L i
    show Nat.testBit (set_features_fold "x64" L).1 i = true ↔ _
    unfold set_features_fold
    rw [set_features_fold_fst "x64" L 0 [], feature_union_testBit]
    simp [List.any_eq_true]
  · intro a L
    show (set_features_fold "x64" L).2 = _
    unfold set_features_fold
    rw [set_features_fold_snd "x64" L 0 []]
    simp
  · intro a L i
    show Nat.testBit (set_features_fold "x86" L).1 i = true ↔ _
    unfold set_features_fold
    rw [set_features_fold_fst "x86" L 0 [], feature_union_testBit]
    simp [List.any_eq_true]
  · intro a L
    show (set_features_fold "x86" L).2 = _
    unfold set_features_fold
    rw [set_features_fold_snd "x86" L 0 []]
    simp

/-- C7: in the operand sizer, a unified operand size above DWORD caps the
wildcard immediate size at exactly DWORD: if the unified wildcard immediate
size itself exceeds DWORD, sizing fails with the immediate-size-mismatch
error (first conjunct); otherwise the fill-in pass is run with the wildcard
immediate size exactly DWORD — never QWORD (second conjunct). -/
theorem c7_immediate_cap :
    (∀ (fmt : Opdata) (args : List CleanArg) (ha : Bool) (o i : Size),
      determine_sizes fmt args = CResult.ok (ha, some o, some i) →
      Size.lt Size.dword o = true →
      Size.lt Size.dword i = true →
      size_operands fmt args = CResult.err (.generic "Immediate size mismatch")) ∧
    (∀ (fmt : Opdata) (args : List CleanArg) (ha : Bool) (o : Size) (io : Option Size),
      determine_sizes fmt args = CResult.ok (ha, some o, io) →
      Size.lt Size.dword o = true →
      (io = none ∨ ∃ i, io = some i ∧ Size.lt Size.dword i = false) →
      size_operands fmt args = (fill_go (some o) (some Size.dword) (args.zip fmt.args)).bind
        (fun new_args => CResult.ok (some o, new_args))) := by
  constructor
  · intro fmt args ha o i hdet ho hi
    unfold size_operands
    rw [hdet]
    simp only [CResult.bind, cap_imm, ho, if_pos, hi]
  · intro fmt args ha o io hdet ho hio
    unfold size_operands
    rw [hdet]
    rcases hio with h | ⟨i, hi, hlt⟩
    · subst h
      simp [CResult.bind, cap_imm, ho]
    · subst hi
      simp [CResult.bind, cap_imm, ho, hlt]

/-- Witness for C7: a representative `reg, imm` format with wildcard sizes.
With a QWORD register and a QWORD immediate the sizer rejects; with a QWORD
register and a DWORD immediate the fill-in pass runs with the immediate size
capped to exactly DWORD. -/
theorem c7_immediate_cap_witness :
    size_operands (⟨[(114, 42), (105, 42)], [0xB8], 0, 0, 0⟩ : Opdata)
      [CleanArg.direct ⟨Size.qword, RegKind.static RegId.RAX⟩,
       CleanArg.immediate (Value.Qword 5)]
      = CResult.err (.generic "Immediate size mismatch") ∧
    size_operands (⟨[(114, 42), (105, 42)], [0xB8], 0, 0, 0⟩ : Opdata)
      [CleanArg.direct ⟨Size.qword, RegKind.static RegId.RAX⟩,
       CleanArg.immediate (Value.Dword 5)]
      = (fill_go (some Size.qword) (some Size.dword)
          ([CleanArg.direct ⟨Size.qword, RegKind.static RegId.RAX⟩,
            CleanArg.immediate (Value.Dword 5)].zip
            (⟨[(114, 42), (105, 42)], [0xB8], 0, 0, 0⟩ : Opdata).args)).bind
          (fun new_args => CResult.ok (some Size.qword, new_args)) := by
  constructor
  · exact c7_immediate_cap.1 _ _ true Size.qword Size.qword (by decide) (by decide) (by decide)
  · exact c7_immediate_cap.2 _ _ true Size.qword (some Size.dword) (by decide) (by decide)
      (Or.inr ⟨Size.dword, rfl, by decide⟩)

def cr_is_ok {α : Type} : CResult α → Bool
| .ok _ => true
| _ => false

def cr_is_panic {α : Type} : CResult α → Bool
| .panicked _ => true
| _ => false

theorem match_op_go_find (ctx : Context) (args : List CleanArg) (name : String)
    (full : List Opdata) :
    ∀ (rest : List Opdata),
      (∀ f ∈ rest, cr_is_panic (match_format_string ctx f args) = false) →
      match_op_go ctx args name full rest
        = match rest.find? (fun f => cr_is_ok (match_format_string ctx f args)) with
          | some f => (CResult.ok f, [])
          | none => (CResult.err (.generic (no_match_msg name full)), []) := by
  intro rest
  induction rest with
  | nil => intro h; simp [match_op_go, EM.throw, List.find?]
  | cons f fs ih =>
    intro h
    have hf := h f (by simp)
    have ht : ∀ g ∈ fs, cr_is_panic (match_format_string ctx g args) = false :=
      fun g hg => h g (by simp [hg])
    cases hm : match_format_string ctx f args with
    | ok v => simp [match_op_go, hm, EM.pure, List.find?, cr_is_ok]
    | err e => simp [match_op_go, hm, List.find?, cr_is_ok, ih ht]
    | panicked m =>
      rw [hm] at hf
      simp [cr_is_panic] at hf

/-- C6: the format matcher iterates the candidate `Opdata` entries of the mnemonic
in table order and returns the first whose format string matches
(`List.find?` semantics); a mnemonic without a table entry fails with
`Error::Fatal` after emitting the unknown-instruction diagnostic; when no
candidate matches, the aggregate error carries the message listing every
candidate signature of the table.  (The hypothesis excludes candidates whose
format data is malformed enough to panic, in which case the Rust loop
panics instead of continuing.) -/
theorem c6_match_op_format (ctx : Context) (span : ErrorSpan) (name : String)
    (args : List CleanArg)
    (hnp : ∀ f ∈ (get_mnemnonic_data name).getD [],
      cr_is_panic (match_format_string ctx f args) = false) :
    match_op_format ctx span name args
      = match get_mnemnonic_data name with
        | none => (CResult.err Error.fatal, [invalid_instruction_msg name])
        | some table =>
          match table.find? (fun f => cr_is_ok (match_format_string ctx f args)) with
          | some f => (CResult.ok f, [])
          | none => (CResult.err (.generic (no_match_msg name table)), []) := by
  cases hg : get_mnemnonic_data name with
  | none => simp [match_op_format, hg, EM.bind, EM.emit, EM.throw]
  | some table =>
    rw [hg] at hnp
    simp only [Option.getD] at hnp
    simp only [match_op_format, hg]
    exact match_op_go_find ctx args name table table hnp

/-- Witness for C6: `mov rax, rbx` resolves to the first (store) `mov` table
entry, and an unknown mnemonic fails fatally with the unknown-instruction
diagnostic. -/
theorem c6_match_op_format_witness :
    match_op_format ⟨X86Mode.Long, 0⟩ (ErrorSpan.instructionPart 0) "mov"
      [CleanArg.direct ⟨Size.qword, RegKind.static RegId.RAX⟩,
       CleanArg.direct ⟨Size.qword, RegKind.static RegId.RBX⟩]
      = (CResult.ok mov_mr, []) ∧
    match_op_format ⟨X86Mode.Long, 0⟩ (ErrorSpan.instructionPart 0) "bogus" []
      = (CResult.err Error.fatal, [invalid_instruction_msg "bogus"]) := by
  constructor
  · exact (c6_match_op_format ⟨X86Mode.Long, 0⟩ (ErrorSpan.instructionPart 0) "mov"
      [CleanArg.direct ⟨Size.qword, RegKind.static RegId.RAX⟩,
       CleanArg.direct ⟨Size.qword, RegKind.static RegId.RBX⟩] (by decide)).trans (by rfl)
  · exact (c6_match_op_format ⟨X86Mode.Long, 0⟩ (ErrorSpan.instructionPart 0) "bogus" []
      (by decide)).trans (by rfl)

theorem EM.bind_def {α β : Type} (x : EM α) (f : α → EM β) : x >>= f = EM.bind x f := rfl

theorem EM.pure_def {α : Type} (a : α) : (Pure.pure a : EM α) = EM.pure a := rfl

/-- C3: the RSP/R12 handling of the sanitizer.  (1) A legacy base that is RSP,
R12 or a dynamically-selected register, with no index, receives a synthetic
index of RSP with scale 1 (so the emitter escapes into a SIB byte).  (2) A
static RSP in the index slot is swapped into the base slot when its scale is
1, it carries no dynamic scale expression and the base is not itself RSP.
(3) Otherwise (base already RSP, scale not 1, or a dynamic scale expression)
sanitizing fails with `Error::Fatal` after emitting the rsp-cannot-be-index
diagnostic.  (4) Whenever an index is present the emitter encodes the first
ModRM byte with rm = RSP (the SIB escape): its low three bits decode to 4,
the RSP encoding. -/
theorem c3_rsp_index_handling :
    (∀ (ctx : Context) (span : ErrorSpan) (nosplit : Bool) (b : Register),
      b.kind.family = RegFamily.legacy →
      (b.size = Size.dword ∨ b.size = Size.qword) →
      (b.is_id RegId.RSP = true ∨ b.is_id RegId.R12 = true ∨ b.kind.is_dynamic = true) →
      sanitize_indirect ctx span nosplit (some b) none
        = (CResult.ok (some b.size, some b,
            some (Register.new_static b.size RegId.RSP, 1, none)), [])) ∧
    (∀ (ctx : Context) (span : ErrorSpan) (nosplit : Bool) (b : Register) (isz : Size),
      b.kind.family = RegFamily.legacy →
      b.size = isz →
      (b.size = Size.dword ∨ b.size = Size.qword) →
      b.is_id RegId.RSP = false →
      sanitize_indirect ctx span nosplit (some b)
        (some (⟨isz, RegKind.static RegId.RSP⟩, 1, none))
        = (CResult.ok (some b.size, some (⟨isz, RegKind.static RegId.RSP⟩ : Register),
            some (b, 1, none)), [])) ∧
    (∀ (ctx : Context) (span : ErrorSpan) (nosplit : Bool) (b : Register) (isz : Size)
        (sc : Int) (se : Option Expr),
      b.kind.family = RegFamily.legacy →
      b.size = isz →
      (b.size = Size.dword ∨ b.size = Size.qword) →
      (b.is_id RegId.RSP = true ∨ sc ≠ 1 ∨ se ≠ none) →
      sanitize_indirect ctx span nosplit (some b)
        (some (⟨isz, RegKind.static RegId.RSP⟩, sc, se))
        = (CResult.err Error.fatal, ["rsp cannot be used as index field"])) ∧
    (∀ (ctx : Context) (m : Nat) (k : RegKind) (st : CompState),
      k.is_dynamic = false →
      compile_modrm_sib ctx m k (RegKind.static RegId.RSP) st
        = (CResult.ok (),
           ⟨st.stmts ++ [Stmt.u8 ((m <<< 6) ||| ((k.encode &&& 7) <<< 3) ||| 4)], st.diags⟩) ∧
      (((m <<< 6) ||| ((k.encode &&& 7) <<< 3) ||| 4) &&& 7) = 4) := by
  refine ⟨?_, ?_, ?_, ?_⟩
  · intro ctx span nosplit b hf hsz hc
    obtain ⟨bs, bk⟩ := b
    simp only [Register.size] at hsz ⊢
    simp only [Register.kind] at hf hc
    rcases hc with h1 | h1 | h1 <;> (try simp only [Register.is_id] at h1) <;>
      rcases hsz with rfl | rfl <;>
      simp [sanitize_indirect, EM.bind_def, EM.bind, EM.pure_def, EM.pure, EM.emit, EM.throw,
        EM.panic, hf, h1, opt_reg_is, opt_reg_is_dynamic, Register.is_id]
  · intro ctx span nosplit b isz hf hs hsz hbn
    obtain ⟨bs, bk⟩ := b
    simp only [Register.size] at hs hsz ⊢
    simp only [Register.kind] at hf
    simp only [Register.is_id] at hbn
    subst hs
    have hileg : (RegKind.static RegId.RSP).family = RegFamily.legacy := rfl
    have hiid : (RegKind.static RegId.RSP).is_id RegId.RSP = true := rfl
    rcases hsz with rfl | rfl <;>
      simp [sanitize_indirect, EM.bind_def, EM.bind, EM.pure_def, EM.pure, EM.emit, EM.throw,
        EM.panic, hf, hbn, opt_reg_is, opt_reg_is_dynamic, Register.is_id, hileg, hiid]
  · intro ctx span nosplit b isz sc se hf hs hsz hfail
    obtain ⟨bs, bk⟩ := b
    simp only [Register.size] at hs hsz ⊢
    simp only [Register.kind] at hf
    simp only [Register.is_id] at hfail
    subst hs
    have hileg : (RegKind.static RegId.RSP).family = RegFamily.legacy := rfl
    have hiid : (RegKind.static RegId.RSP).is_id RegId.RSP = true := rfl
    rcases hsz with rfl | rfl <;>
      rcases hfail with h1 | h1 | h1 <;>
      simp [sanitize_indirect, EM.bind_def, EM.bind, EM.pure_def, EM.pure, EM.emit, EM.throw,
        EM.panic, hf, h1, opt_reg_is, opt_reg_is_dynamic, Register.is_id, hileg, hiid]
  · intro ctx m k st hk
    constructor
    · cases k with
      | static id =>
        have h47 : (4 : Nat) &&& 7 = 4 := by decide
        simp [compile_modrm_sib, RegKind.is_dynamic, RegKind.encode, RegKind.code, M.push,
          RegId.RSP, Option.getD, h47]
      | dynamic hint e => simp [RegKind.is_dynamic] at hk
    · have h7 : (7 : Nat) = 2 ^ 3 - 1 := by norm_num
      rw [Nat.and_distrib_right, Nat.and_distrib_right, Nat.shiftLeft_eq, Nat.shiftLeft_eq,
        h7, Nat.and_pow_two_sub_one_eq_mod, Nat.and_pow_two_sub_one_eq_mod,
        Nat.and_pow_two_sub_one_eq_mod]
      have h1 : m * 2 ^ 6 % 2 ^ 3 = 0 := by
        have hm : m * 2 ^ 6 = m * 2 ^ 3 * 2 ^ 3 := by ring
        rw [hm, Nat.mul_mod_left]
      have h2 : k.encode % 2 ^ 3 * 2 ^ 3 % 2 ^ 3 = 0 := Nat.mul_mod_left _ _
      rw [h1, h2]
      decide

/-- Witness for C3: all four parts at concrete inputs — `[rsp]` gains the
synthetic RSP index, `[rbx + rsp*1]` is swapped into `[rsp + rbx*1]`,
`[rbx + rsp*2]` is rejected fatally with the diagnostic, and the ModRM byte
emitted for an escaped operand (`mod = 0`, `reg = rax`) is 0x04, whose low
three bits are 4 (the RSP encoding). -/
theorem c3_rsp_index_handling_witness :
    sanitize_indirect ⟨X86Mode.Long, 0⟩ (ErrorSpan.argument 0) false
      (some ⟨Size.qword, RegKind.static RegId.RSP⟩) none
      = (CResult.ok (some Size.qword, some (⟨Size.qword, RegKind.static RegId.RSP⟩ : Register),
          some (Register.new_static Size.qword RegId.RSP, 1, none)), []) ∧
    sanitize_indirect ⟨X86Mode.Long, 0⟩ (ErrorSpan.argument 0) false
      (some ⟨Size.qword, RegKind.static RegId.RBX⟩)
      (some (⟨Size.qword, RegKind.static RegId.RSP⟩, 1, none))
      = (CResult.ok (some Size.qword, some (⟨Size.qword, RegKind.static RegId.RSP⟩ : Register),
          some ((⟨Size.qword, RegKind.static RegId.RBX⟩ : Register), 1, none)), []) ∧
    sanitize_indirect ⟨X86Mode.Long, 0⟩ (ErrorSpan.argument 0) false
      (some ⟨Size.qword, RegKind.static RegId.RBX⟩)
      (some (⟨Size.qword, RegKind.static RegId.RSP⟩, 2, none))
      = (CResult.err Error.fatal, ["rsp cannot be used as index field"]) ∧
    compile_modrm_sib ⟨X86Mode.Long, 0⟩ 0 (RegKind.static RegId.RAX)
      (RegKind.static RegId.RSP) ⟨[], []⟩
      = (CResult.ok (), ⟨[Stmt.u8 4], []⟩) ∧
    ((4 : Nat) &&& 7) = 4 := by
  refine ⟨?_, ?_, ?_, ?_, by decide⟩
  · exact c3_rsp_index_handling.1 ⟨X86Mode.Long, 0⟩ (ErrorSpan.argument 0) false
      ⟨Size.qword, RegKind.static RegId.RSP⟩ (by decide) (by decide) (by decide)
  · exact c3_rsp_index_handling.2.1 ⟨X86Mode.Long, 0⟩ (ErrorSpan.argument 0) false
      ⟨Size.qword, RegKind.static RegId.RBX⟩ Size.qword (by decide) (by decide) (by decide)
      (by decide)
  · exact c3_rsp_index_handling.2.2.1 ⟨X86Mode.Long, 0⟩ (ErrorSpan.argument 0) false
      ⟨Size.qword, RegKind.static RegId.RBX⟩ Size.qword 2 none (by decide) (by decide)
      (by decide) (by simp)
  · exact ((c3_rsp_index_handling.2.2.2 ⟨X86Mode.Long, 0⟩ 0 (RegKind.static RegId.RAX)
      ⟨[], []⟩ (by decide)).1).trans (by rfl)

theorem M.liftEM_apply {α : Type} (x : EM α) (st : CompState) :
    M.liftEM x st = (x.1, ⟨st.stmts, st.diags ++ x.2⟩) := rfl

theorem M.liftCR_apply {α : Type} (x : CResult α) (st : CompState) :
    M.liftCR x st = (x, st) := rfl

/-- C9: an instruction whose matched table entry requires features not
contained in the active set fails with `DisabledFeatures` carrying exactly
the bitset difference (required minus active), and the failure happens
before any statement is pushed: the statement stream of the final state is
exactly the initial one (only diagnostics of the earlier sanitize/match
phases may have accumulated). -/
theorem c9_disabled_features (ctx : Context) (prefixes : List Ident) (op : Ident)
    (args args2 : List CleanArg) (asize : Option Size) (d1 d2 : List String)
    (data : Opdata) (pa : Bool) (st : CompState)
    (hsan : sanitize_indirects_and_sizes ctx args = (CResult.ok (asize, args2), d1))
    (hpref : pref_addr_check ctx.mode op (addr_size_default ctx.mode asize) = CResult.ok pa)
    (hmatch : match_op_format ctx (ErrorSpan.instructionPart prefixes.length) op.name args2
      = (CResult.ok data, d2))
    (hfeat : nat_contains ctx.features data.features = false) :
    compile_instruction ctx ⟨prefixes ++ [op]⟩ args st
      = (CResult.err (.disabledFeatures (nat_diff data.features ctx.features)),
         ⟨st.stmts, st.diags ++ d1 ++ d2⟩) ∧
    (compile_instruction ctx ⟨prefixes ++ [op]⟩ args st).2.stmts = st.stmts := by
  have h : compile_instruction ctx ⟨prefixes ++ [op]⟩ args st
      = (CResult.err (.disabledFeatures (nat_diff data.features ctx.features)),
         ⟨st.stmts, st.diags ++ d1 ++ d2⟩) := by
    simp only [compile_instruction, List.getLast?_concat, List.dropLast_concat]
    simp only [M.bind_apply, M.liftEM_apply, M.liftCR_apply, hsan, hpref, hmatch, hfeat]
    simp [M.throw]
  exact ⟨h, by rw [h]⟩

/-- Witness for C9: `popcnt rax, rbx` with an empty active feature set fails
with `DisabledFeatures` naming exactly the POPCNT bit, leaving the statement
stream empty. -/
theorem c9_disabled_features_witness :
    compile_instruction ⟨X86Mode.Long, 0⟩ ⟨[⟨"popcnt"⟩]⟩
      [CleanArg.direct ⟨Size.qword, RegKind.static RegId.RAX⟩,
       CleanArg.direct ⟨Size.qword, RegKind.static RegId.RBX⟩] ⟨[], []⟩
      = (CResult.err (.disabledFeatures 4), ⟨[], []⟩) :=
  (c9_disabled_features ⟨X86Mode.Long, 0⟩ [] ⟨"popcnt"⟩
    [CleanArg.direct ⟨Size.qword, RegKind.static RegId.RAX⟩,
     CleanArg.direct ⟨Size.qword, RegKind.static RegId.RBX⟩]
    [CleanArg.direct ⟨Size.qword, RegKind.static RegId.RAX⟩,
     CleanArg.direct ⟨Size.qword, RegKind.static RegId.RBX⟩]
    none [] [] popcnt_op false ⟨[], []⟩ (by rfl) (by rfl) (by rfl) (by rfl)).1

end Dynasm
